import Mathlib

/-!
Shallow embedding of the dialogue state machine and RAG generation pipeline of
the security-training script generator (app/chatbot/dialogue.py,
app/chatbot/engine.py, app/llm/prompt_builder.py, app/data/vector_store.py,
app/config.py, app/chatbot/questions.py), together with proofs that settle the
claims about it.

Conventions of the embedding:
* Python dicts keyed by strings are association lists `List (String × α)`;
  `d[k] = v` is `alistInsert` (replace-in-place or append), `del d[k]` is
  `alistErase`, `d.get(k)`/`k in d` go through `alistFind`.
* A recorded answer is a `Value`: either a Python `str` or a `list` of strings,
  mirroring the `isinstance(x, list)` branching in the source.
* Timestamps are integers (seconds); `datetime.now()` values are passed in as
  explicit `now` arguments.
* A Python computation that may raise is modelled as `PyResult α`; the payload
  of `PyResult.exn` is the exception class name.
* Calls into external collaborators (ChromaDB, the embedding model, the Ollama
  LLM, the `re` regex engine and `json.loads`) are passed in as explicit
  effect/oracle arguments, since their internals are outside the embedded code.
-/

set_option autoImplicit false

set_option maxRecDepth 16384

namespace Infosec

/-- Outcome of a Python computation: a value, or a raised exception
(identified by its class name). -/
inductive PyResult (α : Type) where
  | ok (a : α)
  | exn (e : String)
  deriving DecidableEq, Repr

/-- A Python answer value: a `str` or a `list` of strings. -/
inductive Value where
  | str (s : String)
  | list (l : List String)
  deriving DecidableEq, Repr

/-- Lookup in a string-keyed Python dict (association list). -/
def alistFind {α : Type} : List (String × α) → String → Option α
  | [], _ => none
  | p :: ps, k => if p.1 = k then some p.2 else alistFind ps k

/-- The `d[k] = v` on a Python dict: overwrite the (unique) entry for `k` in
place, or append a new entry. -/
def alistInsert {α : Type} : List (String × α) → String → α → List (String × α)
  | [], k, v => [(k, v)]
  | p :: ps, k, v => if p.1 = k then (k, v) :: ps else p :: alistInsert ps k v

/-- The `del d[k]` on a Python dict: drop the (unique) entry for `k`. -/
def alistErase {α : Type} : List (String × α) → String → List (String × α)
  | [], _ => []
  | p :: ps, k => if p.1 = k then ps else p :: alistErase ps k

/-- Number of entries for key `k`. -/
def countKey {α : Type} : List (String × α) → String → Nat
  | [], _ => 0
  | p :: ps, k => (if p.1 = k then 1 else 0) + countKey ps k

/-- The keys of a dict, in order. -/
def alistKeys {α : Type} (d : List (String × α)) : List String :=
  d.map Prod.fst

/-- Python truthiness of an answer value (`""` and `[]` are falsy). -/
def pyTruthy : Value → Bool
  | .str s => s != ""
  | .list l => !l.isEmpty

/-- The `sep.join(xs)`. -/
def strJoin (sep : String) : List String → String
  | [] => ""
  | [x] => x
  | x :: xs => x ++ sep ++ strJoin sep xs

/-- Python `str()` of an answer value as it appears inside an f-string
(`repr` for lists of strings). -/
def pyStr : Value → String
  | .str s => s
  | .list l => "[" ++ strJoin ", " (l.map (fun x => "\x27" ++ x ++ "\x27")) ++ "]"

/-- The `charsPre pat l`: `pat` is a prefix of `l` (on character lists). -/
def charsPre : List Char → List Char → Bool
  | [], _ => true
  | _ :: _, [] => false
  | a :: ps, b :: ls => a == b && charsPre ps ls

/-- The `charsSub pat l`: `pat` occurs as a contiguous run inside `l`. -/
def charsSub (pat : List Char) : List Char → Bool
  | [] => charsPre pat []
  | b :: ls => charsPre pat (b :: ls) || charsSub pat ls

/-- Python `pat in s` on strings: substring occurrence. -/
def containsSub (s pat : String) : Bool := charsSub pat.data s.data

/-- Python `needle in v`: substring test on a `str` value, membership on a
`list` value. -/
def pyInV (needle : String) : Value → Bool
  | .str s => containsSub s needle
  | .list l => l.contains needle

/-- Double every `'%'` character. -/
def doublePercent : List Char → List Char
  | [] => []
  | c :: cs => if c = '%' then '%' :: '%' :: doublePercent cs else c :: doublePercent cs

/-- Python `s.replace("%", "%%")`, the ad hoc escaping step the prompt
builders apply to embedded free text. -/
def safePercent (s : String) : String := String.mk (doublePercent s.data)

/-- Python `str.lower()` (ASCII letters; the keyword sets the engine matches
against are ASCII). -/
def pyLower (s : String) : String := String.mk (s.data.map Char.toLower)

/-- Python `s.startswith(pre)`. -/
def pyStartsWith (pre s : String) : Bool := charsPre pre.data s.data

/-- Python `s.split(",")`: split at every comma, keeping empty pieces. -/
def splitCommaAux : List Char → List Char → List (List Char)
  | acc, [] => [acc.reverse]
  | acc, c :: cs =>
    if c = ',' then acc.reverse :: splitCommaAux [] cs
    else splitCommaAux (c :: acc) cs

/-- Python `s.split(",")` on strings. -/
def pySplitComma (s : String) : List String :=
  (splitCommaAux [] s.data).map String.mk

/-- Drop leading whitespace. -/
def dropLeadingWs : List Char → List Char
  | [] => []
  | c :: cs => if c.isWhitespace then dropLeadingWs cs else c :: cs

/-- Python `s.strip()`. -/
def pyStrip (s : String) : String :=
  String.mk (dropLeadingWs (dropLeadingWs s.data.reverse).reverse)

/-- A regex word character (`\w`), including the German letters appearing in
the engine's keyword alternations. -/
def isWordChar (c : Char) : Bool :=
  c.isAlphanum || c == '_' || "äöüÄÖÜß".data.contains c

/-- Split a character list into maximal runs of characters satisfying `keep`,
dropping separators (the accumulator holds the current run reversed). -/
def runsAux (keep : Char → Bool) : List Char → List Char → List (List Char)
  | acc, [] => if acc.isEmpty then [] else [acc.reverse]
  | acc, c :: cs =>
    if keep c then runsAux keep (c :: acc) cs
    else if acc.isEmpty then runsAux keep [] cs
    else acc.reverse :: runsAux keep [] cs

/-- The `\w+` tokens of a string. -/
def wordTokens (s : String) : List String :=
  (runsAux isWordChar [] s.data).map String.mk

/-- Python `str.split()` (split on whitespace runs, dropping empties). -/
def pySplitWs (s : String) : List String :=
  (runsAux (fun c => !c.isWhitespace) [] s.data).map String.mk

/-- Model of `re.search(r"\b(w1|w2|...)\b", msg.lower())` for alternations
made of word characters only: some `\w+` token of the lowered message equals
one of the words. -/
def wordMatch (kws : List String) (msg : String) : Bool :=
  (wordTokens (pyLower msg)).any (fun t => kws.contains t)

/-- Index of the first occurrence of `c` (Python `s.find(c)` before the
`-1` encoding). -/
def firstIdxOf (c : Char) : List Char → Option Nat
  | [] => none
  | x :: xs => if x = c then some 0 else (firstIdxOf c xs).map (· + 1)

/-- Index of the last occurrence of `c` (Python `s.rfind(c)` before the
`-1` encoding). -/
def lastIdxOf (c : Char) : List Char → Option Nat
  | [] => none
  | x :: xs =>
    match lastIdxOf c xs with
    | some j => some (j + 1)
    | none => if x = c then some 0 else none

/-- A question definition (id, display prompt, description, declared type,
choice set). The numeric bounds/default of the `duration` question are not
read by any embedded operation and are elided. -/
structure Question where
  id : String
  question : String
  description : String
  qtype : String
  options : List String
  deriving DecidableEq, Repr

/-- The `STRATEGIC_QUESTIONS` from app/config.py. -/
def STRATEGIC_QUESTIONS : List Question :=
  [ ⟨"facility_type",
     "In welcher medizinischen Einrichtung sollen die Schulungen umgesetzt werden?",
     "Dies hilft uns, den spezifischen Kontext zu verstehen (z.B. Krankenhaus, Forschungseinrichtung, Arztpraxis)",
     "text", []⟩,
    ⟨"target_audience",
     "Welche Personengruppen sollen geschult werden?",
     "Z.B. Pflegepersonal, Ärzte, Verwaltungsmitarbeiter, IT-Personal, Forschende",
     "multi-select",
     ["Pflegepersonal", "Ärzte", "Verwaltungsmitarbeiter", "IT-Personal", "Forschende", "Sonstige"]⟩,
    ⟨"duration",
     "Wie lang darf die Schulung maximal sein (in Minuten)?",
     "Kurze Schulungen fokussieren auf Kernpunkte, längere können detaillierter sein",
     "number", []⟩,
    ⟨"focus_threats",
     "Auf welche Bedrohungen soll besonders eingegangen werden?",
     "Wählen Sie die Bedrohungsszenarien, die für Ihre Einrichtung besonders relevant sind",
     "multi-select",
     ["Phishing", "Malware", "Social Engineering", "Passwort-Sicherheit", "Datendiebstahl", "Mobile Geräte", "Sonstige"]⟩,
    ⟨"skill_level",
     "Wie schätzen Sie das durchschnittliche IT-Sicherheitswissen der Zielgruppe ein?",
     "Dies hilft uns, den Detailgrad und die Komplexität der Schulung anzupassen",
     "single-select",
     ["Grundlegend", "Mittel", "Fortgeschritten"]⟩,
    ⟨"regulatory_requirements",
     "Welche regulatorischen Anforderungen sind zu berücksichtigen?",
     "Z.B. DSGVO, spezifische Branchenrichtlinien, interne Compliance-Regeln",
     "text", []⟩,
    ⟨"custom_scenarios",
     "Gibt es spezifische Szenarien oder Fallbeispiele, die eingebaut werden sollen?",
     "Beschreiben Sie relevante Situationen aus dem Arbeitsalltag Ihrer Einrichtung",
     "text", []⟩ ]

/-- The `get_strategic_questions` from app/chatbot/questions.py. -/
def get_strategic_questions : List Question := STRATEGIC_QUESTIONS

/-- The `get_contextual_questions` from app/chatbot/questions.py. `facility_type`
arrives as the raw recorded value (string or list), because
`_update_contextual_questions` passes `responses.get("facility_type", "")`
through unparsed and the `"Krankenhaus" in facility_type` tests then act as
substring or membership tests accordingly. -/
def get_contextual_questions (facility_type : Value)
    (target_audience focus_threats : List String) : List Question :=
  let qs : List Question := []
  let qs :=
    if pyInV "Krankenhaus" facility_type || pyInV "Klinik" facility_type then
      qs ++
      [ ⟨"hospital_specific",
         "Gibt es in Ihrem Krankenhaus/Ihrer Klinik spezifische Bereiche mit besonderem Schutzbedarf (z.B. Intensivstation, OP-Bereich)?",
         "Diese Information hilft uns, die Schulung auf besonders sensible Bereiche auszurichten",
         "text", []⟩,
        ⟨"patient_data_systems",
         "Welche Patientendatensysteme werden in Ihrer Einrichtung verwendet?",
         "Die Nennung konkreter Systeme ermöglicht uns, spezifische Sicherheitsmaßnahmen in die Schulung zu integrieren",
         "text", []⟩ ]
    else if pyInV "Forschung" facility_type || pyInV "Labor" facility_type then
      qs ++
      [ ⟨"research_data",
         "Welche Arten von Forschungsdaten werden in Ihrer Einrichtung verarbeitet?",
         "Diese Information hilft uns, die Schulung auf den Schutz sensibler Forschungsdaten auszurichten",
         "text", []⟩,
        ⟨"international_collaboration",
         "Arbeiten Sie mit internationalen Forschungspartnern zusammen?",
         "Internationale Zusammenarbeit bringt zusätzliche Sicherheitsaspekte mit sich",
         "boolean", []⟩ ]
    else if pyInV "Praxis" facility_type || pyInV "Arzt" facility_type then
      qs ++
      [ ⟨"practice_size",
         "Wie viele Mitarbeiter sind in Ihrer Praxis tätig?",
         "Die Größe der Praxis beeinflusst die Organisation der Sicherheitsmaßnahmen",
         "number", []⟩,
        ⟨"electronic_prescription",
         "Nutzen Sie elektronische Rezepte oder andere digitale Verordnungssysteme?",
         "Diese Systeme bringen spezifische Sicherheitsanforderungen mit sich",
         "boolean", []⟩ ]
    else qs
  let qs :=
    if target_audience.contains "Ärzte" then
      qs ++
      [ ⟨"doctor_workflow",
         "In welchen typischen Arbeitssituationen nutzen Ärzte in Ihrer Einrichtung IT-Systeme?",
         "Dies hilft uns, die Schulung in den konkreten Arbeitsalltag zu integrieren",
         "text", []⟩ ]
    else qs
  let qs :=
    if target_audience.contains "Pflegepersonal" then
      qs ++
      [ ⟨"nurse_devices",
         "Welche mobilen Geräte nutzt das Pflegepersonal bei der täglichen Arbeit?",
         "Mobile Geräte haben besondere Sicherheitsanforderungen",
         "text", []⟩ ]
    else qs
  let qs :=
    if target_audience.contains "Verwaltungsmitarbeiter" then
      qs ++
      [ ⟨"admin_access",
         "Welche sensiblen Systeme und Daten werden von Verwaltungsmitarbeitern verwaltet?",
         "Dies hilft uns, die spezifischen Bedrohungen für Verwaltungspersonal zu adressieren",
         "text", []⟩ ]
    else qs
  let qs :=
    if target_audience.contains "IT-Personal" then
      qs ++
      [ ⟨"it_infrastructure",
         "Wie ist Ihre IT-Infrastruktur aufgebaut (On-Premise, Cloud, Hybrid)?",
         "Die Infrastruktur bestimmt die relevanten Sicherheitsmaßnahmen",
         "text", []⟩ ]
    else qs
  let qs :=
    if focus_threats.contains "Phishing" then
      qs ++
      [ ⟨"phishing_incidents",
         "Gab es in der Vergangenheit Phishing-Vorfälle in Ihrer Einrichtung?",
         "Frühere Vorfälle können hilfreiche Beispiele für die Schulung liefern",
         "text", []⟩ ]
    else qs
  let qs :=
    if focus_threats.contains "Malware" then
      qs ++
      [ ⟨"removable_media",
         "Werden in Ihrer Einrichtung regelmäßig externe Speichermedien verwendet?",
         "Externe Speichermedien sind ein häufiger Übertragungsweg für Malware",
         "boolean", []⟩ ]
    else qs
  let qs :=
    if focus_threats.contains "Passwort-Sicherheit" then
      qs ++
      [ ⟨"password_policy",
         "Gibt es in Ihrer Einrichtung eine definierte Passwort-Richtlinie?",
         "Bestehende Richtlinien sollten in die Schulung integriert werden",
         "text", []⟩ ]
    else qs
  let qs :=
    if focus_threats.contains "Datendiebstahl" then
      qs ++
      [ ⟨"data_classification",
         "Gibt es in Ihrer Einrichtung ein System zur Klassifizierung von Daten nach Schutzbedarf?",
         "Ein Klassifizierungssystem hilft bei der Priorisierung von Schutzmaßnahmen",
         "text", []⟩ ]
    else qs
  let qs :=
    if focus_threats.contains "Mobile Geräte" then
      qs ++
      [ ⟨"byod_policy",
         "Erlauben Sie die Nutzung privater Geräte für dienstliche Zwecke (BYOD)?",
         "BYOD-Richtlinien beeinflussen die Sicherheitsanforderungen für mobile Geräte",
         "boolean", []⟩ ]
    else qs
  qs ++
  [ ⟨"previous_training",
     "Gab es bereits frühere Schulungen zum Thema Informationssicherheit in Ihrer Einrichtung?",
     "Dies hilft uns, die neue Schulung optimal auf den bestehenden Wissensstand abzustimmen",
     "text", []⟩,
    ⟨"specific_examples",
     "Haben Sie spezifische Beispiele oder Szenarien, die in der Schulung berücksichtigt werden sollten?",
     "Konkrete Beispiele aus dem Arbeitsalltag machen die Schulung praxisnäher",
     "text", []⟩ ]

/-- The `get_clarification_questions` from app/chatbot/questions.py. -/
def get_clarification_questions (missing_fields : List String) : List Question :=
  missing_fields.foldl (fun acc field =>
    if field = "facility_type" then
      acc ++
      [ ⟨"clarify_facility",
         "Könnten Sie bitte die Art Ihrer medizinischen Einrichtung genauer beschreiben?",
         "Zum Beispiel: Krankenhaus, Forschungslabor, Arztpraxis, etc.",
         "text", []⟩ ]
    else if field = "target_audience" then
      acc ++
      [ ⟨"clarify_audience",
         "Für welche Personengruppen soll die Schulung erstellt werden?",
         "Zum Beispiel: Ärzte, Pflegepersonal, Verwaltung, IT-Personal, etc.",
         "text", []⟩ ]
    else if field = "duration" then
      acc ++
      [ ⟨"clarify_duration",
         "Wie lang soll die Schulung maximal sein (in Minuten)?",
         "Eine typische Schulung dauert zwischen 30 und 90 Minuten",
         "number", []⟩ ]
    else if field = "focus_threats" then
      acc ++
      [ ⟨"clarify_threats",
         "Auf welche Sicherheitsbedrohungen soll die Schulung besonders eingehen?",
         "Zum Beispiel: Phishing, Malware, Passwort-Sicherheit, etc.",
         "text", []⟩ ]
    else if field = "skill_level" then
      acc ++
      [ ⟨"clarify_skill",
         "Wie schätzen Sie das durchschnittliche IT-Sicherheitswissen der Zielgruppe ein?",
         "Grundlegend, Mittel oder Fortgeschritten",
         "text", []⟩ ]
    else acc) []

/-- A per-session dialogue state as initialized and mutated by
`DialogueManager` (app/chatbot/dialogue.py). `needs_revision` models the
optional `"needs_revision"` dict key (absent on initialization); the
`revision_request` key is written by `flag_for_revision` only and never read,
so it is elided. -/
structure DialogueState where
  current_stage : String
  next_question_index : Nat
  strategic_questions : List Question
  contextual_questions : List Question
  asked_questions : List String
  responses : List (String × Value)
  missing_information : List String
  needs_revision : Option Bool
  last_updated : Int
  deriving DecidableEq, Repr

/-- The `DialogueManager`'s process-wide `dialogue_states` dict. -/
structure DialogueManager where
  dialogue_states : List (String × DialogueState)
  deriving DecidableEq, Repr

/-- The `DialogueManager.initialize_dialogue`: create and store a fresh dialogue
state for the session. -/
def initialize_dialogue (m : DialogueManager) (session_id : String) (now : Int) :
    DialogueManager × DialogueState :=
  let dialogue_state : DialogueState :=
    { current_stage := "introduction"
      next_question_index := 0
      strategic_questions := get_strategic_questions
      contextual_questions := []
      asked_questions := []
      responses := []
      missing_information := []
      needs_revision := none
      last_updated := now }
  (⟨alistInsert m.dialogue_states session_id dialogue_state⟩, dialogue_state)

/-- The `DialogueManager._update_contextual_questions`: re-derive the contextual
question list from the recorded strategic responses, guessing comma-separated
lists for string-valued multi answers. -/
def update_contextual_questions (st : DialogueState) : DialogueState :=
  let facility_type := (alistFind st.responses "facility_type").getD (.str "")
  let target_audience :=
    match (alistFind st.responses "target_audience").getD (.str "") with
    | .list l => l
    | .str s => (pySplitComma s).map pyStrip
  let focus_threats :=
    match (alistFind st.responses "focus_threats").getD (.str "") with
    | .list l => l
    | .str s => (pySplitComma s).map pyStrip
  { st with contextual_questions :=
      get_contextual_questions facility_type target_audience focus_threats }

/-- The `DialogueManager.process_response`: store/overwrite the answer, record the
question as asked, bump the timestamp, and regenerate contextual questions
once the strategic catalog is exhausted (or a clarification was answered).
An unknown session id falls back to `initialize_dialogue`, discarding the
answer. -/
def process_response (m : DialogueManager) (session_id question_id : String)
    (response : Value) (now : Int) : DialogueManager × DialogueState :=
  match alistFind m.dialogue_states session_id with
  | none => initialize_dialogue m session_id now
  | some st =>
    let st := { st with responses := alistInsert st.responses question_id response }
    let st :=
      if st.asked_questions.contains question_id then st
      else { st with asked_questions := st.asked_questions ++ [question_id] }
    let st := { st with last_updated := now }
    let st :=
      if pyStartsWith "clarify_" question_id ||
          decide (st.strategic_questions.length ≤ st.asked_questions.length) then
        update_contextual_questions st
      else st
    (⟨alistInsert m.dialogue_states session_id st⟩, st)

/-- The `DialogueManager._check_for_missing_information`: required fields that are
unanswered or falsy, in the fixed required order. -/
def check_for_missing_information (st : DialogueState) : DialogueState :=
  let required_fields := ["facility_type", "target_audience", "duration", "focus_threats"]
  { st with missing_information :=
      required_fields.filter (fun field =>
        match alistFind st.responses field with
        | none => true
        | some v => !pyTruthy v) }

/-- The `DialogueManager._get_next_strategic_question`: return the question at the
current index (bumping the index), or `none` when the catalog is exhausted. -/
def get_next_strategic_question (st : DialogueState) : DialogueState × Option Question :=
  match st.strategic_questions.get? st.next_question_index with
  | none => (st, none)
  | some q => ({ st with next_question_index := st.next_question_index + 1 }, some q)

/-- The `DialogueManager._get_next_contextual_question`: first contextual question
not yet asked. -/
def get_next_contextual_question (st : DialogueState) : Option Question :=
  st.contextual_questions.find? (fun q => !st.asked_questions.contains q.id)

/-- The `DialogueManager._get_next_clarification_question`: first clarification
question (for the currently missing fields) not yet asked. -/
def get_next_clarification_question (st : DialogueState) : Option Question :=
  (get_clarification_questions st.missing_information).find?
    (fun q => !st.asked_questions.contains q.id)

/-- The `DialogueManager.get_next_question`: the dialogue state machine's advance
operation (stage transitions happen only here). Branches that mutate nothing
return the manager unchanged, mirroring the in-place dict mutation of the
source. -/
def get_next_question (m : DialogueManager) (session_id : String) :
    DialogueManager × Option Question :=
  match alistFind m.dialogue_states session_id with
  | none => (m, none)
  | some st =>
    if st.current_stage = "introduction" then
      let st := { st with current_stage := "strategic_questions" }
      let (st, q) := get_next_strategic_question st
      (⟨alistInsert m.dialogue_states session_id st⟩, q)
    else if st.current_stage = "strategic_questions" then
      let (st, q) := get_next_strategic_question st
      match q with
      | some q => (⟨alistInsert m.dialogue_states session_id st⟩, some q)
      | none =>
        let st := check_for_missing_information st
        if !st.missing_information.isEmpty then
          let st := { st with current_stage := "clarification" }
          (⟨alistInsert m.dialogue_states session_id st⟩,
           get_next_clarification_question st)
        else
          let st := { st with current_stage := "contextual_questions" }
          (⟨alistInsert m.dialogue_states session_id st⟩,
           get_next_contextual_question st)
    else if st.current_stage = "clarification" then
      match get_next_clarification_question st with
      | some q => (m, some q)
      | none =>
        let st := check_for_missing_information st
        if !st.missing_information.isEmpty then
          (⟨alistInsert m.dialogue_states session_id st⟩,
           get_next_clarification_question st)
        else
          let st := { st with current_stage := "contextual_questions" }
          (⟨alistInsert m.dialogue_states session_id st⟩,
           get_next_contextual_question st)
    else if st.current_stage = "contextual_questions" then
      match get_next_contextual_question st with
      | some q => (m, some q)
      | none =>
        let st := { st with current_stage := "summary" }
        (⟨alistInsert m.dialogue_states session_id st⟩, none)
    else if st.current_stage = "summary" then
      if st.needs_revision.getD false then
        let st := { st with current_stage := "revision" }
        (⟨alistInsert m.dialogue_states session_id st⟩, none)
      else
        let st := { st with current_stage := "complete" }
        (⟨alistInsert m.dialogue_states session_id st⟩, none)
    else (m, none)

/-- A session is expired when its age in hours strictly exceeds
`max_age_hours` (the division mirrors `total_seconds() / 3600`). -/
def isExpired (now : Int) (max_age_hours : Int) (st : DialogueState) : Bool :=
  decide ((max_age_hours : ℚ) < ((now - st.last_updated : Int) : ℚ) / 3600)

/-- The `DialogueManager.clean_expired_sessions`: collect the session ids whose
state is expired, delete each, and return how many were removed. -/
def clean_expired_sessions (m : DialogueManager) (now : Int) (max_age_hours : Int) :
    DialogueManager × Nat :=
  let sessions_to_remove :=
    alistKeys (m.dialogue_states.filter (fun p => isExpired now max_age_hours p.2))
  (⟨sessions_to_remove.foldl (fun d sid => alistErase d sid) m.dialogue_states⟩,
   sessions_to_remove.length)

/-- One interaction step against the dialogue manager: an `advance`
(`get_next_question`) or a user answer (`process_response`). -/
inductive Step where
  | advance
  | answer (qid : String) (v : Value)
  deriving DecidableEq, Repr

/-- Execute one step (timestamps are irrelevant to staging and fixed at 0). -/
def runStep (session_id : String) (m : DialogueManager) : Step → DialogueManager
  | .advance => (get_next_question m session_id).1
  | .answer qid v => (process_response m session_id qid v 0).1

/-- The current stage of a session (`""` when the session is unknown). -/
def stageOf (m : DialogueManager) (session_id : String) : String :=
  match alistFind m.dialogue_states session_id with
  | some st => st.current_stage
  | none => ""

/-- The stage before the first step and after each step of a run. -/
def stageTrace (session_id : String) : DialogueManager → List Step → List String
  | m, [] => [stageOf m session_id]
  | m, s :: rest => stageOf m session_id :: stageTrace session_id (runStep session_id m s) rest

/-- Collapse consecutive duplicates, leaving the sequence of visited stages. -/
def dedupConsec : List String → List String
  | [] => []
  | [x] => [x]
  | x :: y :: rest =>
    if x = y then dedupConsec (y :: rest) else x :: dedupConsec (y :: rest)

/-- A manager holding one freshly initialized dialogue for session `"s"`. -/
def freshManager : DialogueManager := (initialize_dialogue ⟨[]⟩ "s" 0).1

/-- A complete interview: every question asked by `get_next_question` is
answered before the next advance, with all required fields truthy. -/
def fullRunSteps : List Step :=
  [ .advance, .answer "facility_type" (.str "Krankenhaus"),
    .advance, .answer "target_audience" (.str "Pflegepersonal"),
    .advance, .answer "duration" (.str "60"),
    .advance, .answer "focus_threats" (.str "Phishing"),
    .advance, .answer "skill_level" (.str "Mittel"),
    .advance, .answer "regulatory_requirements" (.str "DSGVO"),
    .advance, .answer "custom_scenarios" (.str "Umgang mit Patientendaten"),
    .advance, .answer "hospital_specific" (.str "Intensivstation"),
    .advance, .answer "patient_data_systems" (.str "KIS"),
    .advance, .answer "nurse_devices" (.str "Tablets"),
    .advance, .answer "phishing_incidents" (.str "Ja, im letzten Jahr"),
    .advance, .answer "previous_training" (.str "Nein"),
    .advance, .answer "specific_examples" (.str "Keine"),
    .advance, .advance, .advance, .advance ]

/-- The `PromptBuilder.build_system_prompt` (app/llm/prompt_builder.py): a fixed
German system instruction, never parametrized by user input. -/
def build_system_prompt : String :=
  "\n        Du bist ein erfahrener Instructional Designer, spezialisiert auf Schulungen zur Informationssicherheit im medizinischen Kontext.\n        Deine Aufgabe ist es, hochwertige, kompetenzbasierte Schulungsskripte zu erstellen, die einem spezifischen 7-Stufen-Template folgen.\n\n        Du integrierst Elemente der Sozialen Lerntheorie (SLT) und der Schutzmotivationstheorie (PMT) in deine Skripte:\n        - SLT: Einbeziehung von Szenarien, in denen Menschen durch Beobachtung des Verhaltens anderer und dessen Konsequenzen lernen\n        - PMT: Einbeziehung realistischer Bedrohungsbeurteilungen und Wirksamkeitsinformationen zur Motivation von Schutzmaßnahmen\n\n        Befolge diese Prinzipien:\n        1. Verwende klare, präzise Sprache, die für medizinisches Fachpersonal geeignet ist\n        2. Beziehe realistische Beispiele ein, die für medizinische Umgebungen relevant sind\n        3. Sei spezifisch bei der Beschreibung von Bedrohungen, ihren Auswirkungen und Gegenmaßnahmen\n        4. Vermeide Fachjargon, es sei denn, er ist notwendig, und erkläre ihn, wenn er verwendet wird\n        5. Konzentriere dich auf praktische, umsetzbare Ratschläge\n        6. Füge Schritt-für-Schritt-Anleitungen für komplexe Aufgaben ein\n        7. Präsentiere den Inhalt in einer logischen Abfolge\n        8. Achte darauf, dass das gesamte Skript zwischen 1500 und 2000 Wörtern umfasst\n\n        Deine Skripte sollten ausschließlich auf Deutsch sein und reinen Text enthalten, ohne Bilder oder Multimediaelemente.\n        "

/-- Line 105 of app/llm/prompt_builder.py (`build_script_generation_prompt`),
also line 191 (`build_section_generation_prompt`): the ad hoc escaping applied
to the retrieved context before it is embedded. The surrounding f-string
inserts values verbatim, so the doubled percent signs reach the final prompt
text unchanged. -/
def safe_retrieved_context (retrieved_context : String) : String :=
  safePercent retrieved_context

/-- The `PromptBuilder.build_customization_prompt` (lines 348–383): both the
section text and the change request pass through the `%`-doubling step before
being spliced into the fixed instruction template. -/
def build_customization_prompt (base_content customization_request : String) : String :=
  let safe_base_content := safePercent base_content
  let safe_customization_request := safePercent customization_request
  "\n        # CONTENT CUSTOMIZATION TASK\n        Modify the following training script content based on the customization request.\n\n        # ORIGINAL CONTENT\n        " ++
  (safe_base_content ++
   ("\n\n        # CUSTOMIZATION REQUEST\n        " ++
    (safe_customization_request ++
     "\n\n        # INSTRUCTIONS\n        1. Carefully review the original content and the customization request\n        2. Make targeted changes to address the specific requests\n        3. Maintain the overall structure, tone, and quality of the original content\n        4. Focus only on modifying aspects mentioned in the customization request\n        5. If the request is unclear, make minimal changes that best align with the apparent intent\n\n        # MODIFIED CONTENT\n        ")))

/-- The `PromptBuilder.build_hallucination_check_prompt` (lines 385–447); the
doubled braces of the Python f-string denote literal braces in the output. -/
def build_hallucination_check_prompt (generated_content retrieved_context : String) : String :=
  let safe_generated_content := safePercent generated_content
  let safe_retrieved_context := safePercent retrieved_context
  "\n        # HALLUCINATION DETECTION TASK\n        Carefully analyze the generated content and identify any statements that might be hallucinations (facts or claims that are not supported by the retrieved context).\n\n        # GENERATED CONTENT\n        " ++
  safe_generated_content ++
  "\n\n        # RETRIEVED CONTEXT (GROUND TRUTH)\n        " ++
  safe_retrieved_context ++
  "\n\n        # INSTRUCTIONS\n        1. Compare the generated content against the retrieved context\n        2. Identify any statements in the generated content that:\n           - Contradict information in the retrieved context\n           - Make specific factual claims not supported by the retrieved context\n           - Introduce terminology, procedures, or concepts not present in the retrieved context\n        3. Ignore stylistic differences and focus only on factual accuracy\n        4. For each potential hallucination, provide:\n           - The exact quote from the generated content\n           - Why it appears to be a hallucination\n           - A suggested correction (if possible)\n\n        # OUTPUT FORMAT\n        Provide your analysis in the following JSON format:\n        \x7b\n          \"has_hallucinations\": true/false,\n          \"hallucinations\": [\n            \x7b\n              \"text\": \"quoted text from generated content\",\n              \"reason\": \"explanation of why this is a hallucination\",\n              \"correction\": \"suggested correction\"\n            \x7d,\n            ...\n          ]\n        \x7d\n\n        If no hallucinations are found, return:\n        \x7b\n          \"has_hallucinations\": false,\n          \"hallucinations\": []\n        \x7d\n\n        # ANALYSIS\n        "

/-- One section of `TEMPLATE_STRUCTURE` (app/config.py). -/
structure SectionInfo where
  key : String
  title : String
  description : String
  questions : List String
  deriving DecidableEq, Repr

/-- The `TEMPLATE_STRUCTURE` from app/config.py, in dict insertion order. -/
def TEMPLATE_STRUCTURE : List SectionInfo :=
  [ ⟨"threat_awareness", "Threat Awareness / Bedrohungsbewusstsein",
     "Beschreibung des Kontextes, in dem Bedrohungen auftreten",
     ["Was ist der Kontext?", "Was ist die Ausgangssituation?",
      "In welchen Szenarien tritt die Gefahr auf?"]⟩,
    ⟨"threat_identification", "Threat Identification / Bedrohungserkennung",
     "Aufzeigen, welche Indikatoren auf eine Bedrohung hinweisen",
     ["Was ist oder worin besteht die Gefahr?", "Welche Merkmale gibt es?",
      "Wie erkenne ich diese?"]⟩,
    ⟨"threat_impact", "Threat Impact Assessment / Bedrohungsausmaß",
     "Konkrete Darstellung der möglichen Folgen eines Angriffs",
     ["Was sind die Konsequenzen, die aus der Bedrohung entstehen können?",
      "Welche persönlichen und organisatorischen Auswirkungen könnten eintreten?"]⟩,
    ⟨"tactic_choice", "Tactic Choice / Taktische Maßnahmenauswahl",
     "Übersicht möglicher Handlungsoptionen bei Erkennen einer Bedrohung",
     ["Was sind die Handlungsoptionen zwischen denen grundsätzlich gewählt werden kann?",
      "Welche sollte gewählt werden?"]⟩,
    ⟨"tactic_justification", "Tactic Justification / Maßnahmenrechtfertigung",
     "Begründung, warum die gewählte Maßnahme besonders effektiv ist",
     ["Warum genau ist die Maßnahme/Handlungsoption besser als andere?"]⟩,
    ⟨"tactic_mastery", "Tactic Mastery / Maßnahmenbeherrschung",
     "Detaillierte Schritt-für-Schritt-Anleitung zur Umsetzung der gewählten Maßnahme",
     ["Wie muss konkret vorgegangen werden, um die gewählte Handlung umzusetzen?",
      "Was sind die einzelnen Schritte, auf die geachtet werden muss?"]⟩,
    ⟨"tactic_followup", "Tactic Check & Follow-Up / Anschlusshandlungen",
     "Festlegung von Nachkontrollen und weiteren Maßnahmen",
     ["Was sind konkrete Anschlusshandlungen, die nach der Ausführung noch getätigt werden müssen?",
      "Wer bleibt über was auf dem Laufenden?"]⟩ ]

/-- Python `str.title()` on a character list: uppercase a letter following a
non-letter, lowercase the rest. -/
def titleCaseAux : Bool → List Char → List Char
  | _, [] => []
  | prevAlpha, c :: cs =>
    if c.isAlpha then
      (if prevAlpha then c.toLower else c.toUpper) :: titleCaseAux true cs
    else c :: titleCaseAux false cs

/-- The `TEMPLATE_STRUCTURE.get(section_key, {}).get("title", section_key.replace("_", " ").title())`
as used by the engine. -/
def section_title (section_key : String) : String :=
  match TEMPLATE_STRUCTURE.find? (fun info => info.key = section_key) with
  | some info => info.title
  | none => String.mk (titleCaseAux false (section_key.replace "_" " ").data)

/-- One flagged hallucination of the factuality-check JSON schema. -/
structure Hallucination where
  text : String
  reason : String
  correction : String
  deriving DecidableEq, Repr

/-- The parsed factuality-check result
`{"has_hallucinations": bool, "hallucinations": [...]}`. -/
structure HallucinationReport where
  has_hallucinations : Bool
  hallucinations : List Hallucination
  deriving DecidableEq, Repr

/-- The degraded "no hallucinations found" result. -/
def noHallucinations : HallucinationReport := ⟨false, []⟩

/-- The `generation_context` snapshot stored on a session after a successful
generation. The `sources` attribution list (from
`rag_controller.create_attribution_metadata`) is stored but never read by any
embedded operation and is elided. -/
structure GenContext where
  session_context : List (String × Value)
  retrieved_context : String
  prompt : String
  deriving DecidableEq, Repr

/-- One transcript entry of a session. -/
structure ChatMessage where
  role : String
  content : String
  timestamp : Int
  deriving DecidableEq, Repr

/-- A `ChatbotEngine` session dict. Optional dict keys (`clarification_type`,
`missing_field`, `generation_context`, `hallucination_warnings`) are `Option`
fields, absent at creation. -/
structure Session where
  created_at : Int
  strategic_responses : List (String × Value)
  current_question_index : Nat
  stage : String
  messages : List ChatMessage
  generated_script : Option String
  script_sections : List (String × String)
  clarification_type : Option String
  missing_field : Option String
  generation_context : Option GenContext
  hallucination_warnings : Option String
  deriving DecidableEq, Repr

/-- The `ChatbotEngine`'s process-wide `active_sessions` dict. -/
structure Engine where
  active_sessions : List (String × Session)
  deriving DecidableEq, Repr

/-- The `ChatbotEngine.create_session` (modulo the random id, which the caller
supplies): the freshly initialized session dict. -/
def create_session (now : Int) : Session :=
  { created_at := now
    strategic_responses := []
    current_question_index := 0
    stage := "introduction"
    messages := []
    generated_script := none
    script_sections := []
    clarification_type := none
    missing_field := none
    generation_context := none
    hallucination_warnings := none }

/-- Oracles for the collaborators the engine reaches through narrow
interfaces: the rag_controller retrieval helpers (ChromaDB + embedding
model), the script-generation prompt assembly, the Ollama LLM, the `re`
regex engine, and `json.loads`. `γ` stands for the retrieval result
dictionaries, which the engine only pipes onward. An `exn` outcome models the
call raising; for the LLM this includes the `NameError` that
`OllamaClient.generate`'s own logging slip turns network errors into. -/
structure GenEffects (γ : Type) where
  retrieve_context : String → List (String × Value) → PyResult γ
  retrieve_template_examples : String → String → PyResult γ
  retrieve_threat_info : List String → PyResult γ
  combine_retrieval_results : γ → γ → γ → γ
  format_retrieved_content : γ → PyResult String
  build_script_generation_prompt : List (String × Value) → String → PyResult String
  llm : String → Option String → ℚ → PyResult String
  json_loads : String → Option HallucinationReport
  section_search : String → String → Option String
  section_sub : String → String → String → String

/-- The `ChatbotEngine._add_message_to_session` (session already looked up). -/
def add_message_to_session (s : Session) (role content : String) (now : Int) : Session :=
  { s with messages := s.messages ++ [⟨role, content, now⟩] }

/-- The keyword alternation of
`re.search(r"\b(ja|yes|ok|okay|generieren|erstellen|generiere|beginnen?)\b", ...)`
(`beginnen?` matches `beginne` and `beginnen`). -/
def confirm_keywords : List String :=
  ["ja", "yes", "ok", "okay", "generieren", "erstellen", "generiere", "beginne", "beginnen"]

/-- The `re.search(r"\b(nein|no|ändern|änderung|anpassen|korrigieren)\b", ...)`. -/
def change_keywords : List String :=
  ["nein", "no", "ändern", "änderung", "anpassen", "korrigieren"]

/-- The `re.search(r"\b(anpassen|ändern|modifizieren)\b", ...)`. -/
def modify_keywords : List String := ["anpassen", "ändern", "modifizieren"]

/-- The `re.search(r"\b(sehen|anzeigen|zeigen)\b", ...)`. -/
def view_keywords : List String := ["sehen", "anzeigen", "zeigen"]

/-- The `re.search(r"\b(speichern|exportieren|download)\b", ...)`. -/
def export_keywords : List String := ["speichern", "exportieren", "download"]

/-- The `re.search(r"\b(section|abschnitt|teil)\b", ...)`. -/
def section_keywords : List String := ["section", "abschnitt", "teil"]

/-- The `ChatbotEngine._generate_review_summary`. -/
def generate_review_summary (s : Session) : Session × String :=
  let summary_parts :=
    ["Vielen Dank für Ihre Antworten! Hier ist eine Zusammenfassung der Informationen, die ich gesammelt habe:\n"]
  let summary_parts := summary_parts ++
    get_strategic_questions.foldl (fun acc q =>
      match alistFind s.strategic_responses q.id with
      | some response => acc ++ ["- " ++ q.question ++ "\n  " ++ pyStr response]
      | none => acc) []
  let summary_parts := summary_parts ++
    ["\nSind diese Informationen korrekt? Möchten Sie etwas ändern oder ergänzen, bevor ich das Skript erstelle?"]
  ({ s with stage := "review" }, strJoin "\n\n" summary_parts)

/-- The `ChatbotEngine._get_next_strategic_question`. When questions remain, line
174 calls `prompt_builder.build_strategic_question_prompt(question)` — a
method `PromptBuilder` does not define — so the lookup raises
`AttributeError` before the formatted question can be returned. -/
def engine_get_next_strategic_question (s : Session) : Session × PyResult String :=
  match get_strategic_questions.get? s.current_question_index with
  | none =>
    let s := { s with stage := "review" }
    let (s, summary) := generate_review_summary s
    (s, .ok summary)
  | some _ => (s, .exn "AttributeError")

/-- The `ChatbotEngine._process_strategic_question_response`: record the answer
for the question at the current index, bump the index, ask the next one. -/
def process_strategic_question_response (s : Session) (message : String) :
    Session × PyResult String :=
  match get_strategic_questions.get? s.current_question_index with
  | none => (s, .exn "IndexError")
  | some current_question =>
    let s := { s with strategic_responses := alistInsert s.strategic_responses current_question.id (.str message) }
    let s := { s with current_question_index := s.current_question_index + 1 }
    engine_get_next_strategic_question s

/-- The `ChatbotEngine._process_review_response`. -/
def process_review_response (s : Session) (message : String) : Session × String :=
  if wordMatch confirm_keywords message then
    ({ s with stage := "clarification", clarification_type := some "confirm_generation" },
     "Ausgezeichnet! Ich werde nun das Schulungsskript basierend auf Ihren Anforderungen erstellen. Dies kann einen Moment dauern. Möchten Sie fortfahren?")
  else if wordMatch change_keywords message then
    match get_strategic_questions.find? (fun q =>
        (pySplitWs q.question).any (fun keyword =>
          containsSub (pyLower message) (pyLower keyword))) with
    | some q =>
      ({ s with stage := "clarification", clarification_type := some "missing_info",
                missing_field := some q.id },
       "Bitte geben Sie die aktualisierte Information für \x27" ++ q.question ++ "\x27 ein:")
    | none =>
      (s, "Was genau möchten Sie ändern oder ergänzen? Bitte teilen Sie mir mit, welche Information aktualisiert werden soll.")
  else
    ({ s with strategic_responses := alistInsert s.strategic_responses "additional_info" (.str message),
              stage := "clarification", clarification_type := some "confirm_generation" },
     "Danke für die zusätzlichen Informationen! Möchten Sie jetzt das Schulungsskript generieren?")

/-- Lines 331–334 of `_generate_script`: normalize the `focus_threats` answer
(defaulting to the empty list, wrapping a plain string). -/
def resolve_threat_list (session_context : List (String × Value)) : List String :=
  match (alistFind session_context "focus_threats").getD (.list []) with
  | .str s => [s]
  | .list l => l

/-- Line 334 of `_generate_script`: `threats[0] if threats else "phishing"`. -/
def resolve_main_threat (session_context : List (String × Value)) : String :=
  match resolve_threat_list session_context with
  | [] => "phishing"
  | t :: _ => t

/-- The literal success notice of `_generate_script`. -/
def generation_success_message : String :=
  "\n            Ich habe das Schulungsskript basierend auf Ihren Anforderungen erstellt!\n\n            Das Skript folgt dem 7-Stufen-Template und wurde speziell für Ihre Anforderungen angepasst. Es enthält alle wichtigen Informationen zu den Sicherheitsbedrohungen, deren Erkennung, Auswirkungen und Gegenmaßnahmen.\n\n            Möchten Sie das vollständige Skript sehen oder benötigen Sie Anpassungen in bestimmten Abschnitten?\n            "

/-- The generic failure notice of `_generate_script`'s except block (which
the missing `traceback` import prevents from ever being returned). -/
def generation_failure_message : String :=
  "Bei der Erstellung des Skripts ist ein Fehler aufgetreten. Bitte versuchen Sie es erneut oder passen Sie Ihre Anforderungen an."

/-- The caveat block appended for flagged hallucinations (lines 388–394). -/
def hallucination_warning_text (r : HallucinationReport) : String :=
  r.hallucinations.foldl
    (fun acc h => acc ++ "- \"" ++ h.text ++ "\": " ++ h.reason ++ "\n")
    "\n\n## Hinweis zu möglichen Halluzinationen\nDas generierte Skript könnte folgende unbestätigte Informationen enthalten:\n"

/-- Lines 434–441 of `_check_for_hallucinations`: slice the raw LLM response
from its first `{` to its last `}` (Python `find`/`rfind` with the `-1`
absent encoding), or nothing when that slice is empty or ill-formed. -/
def extract_json_str (result : String) : Option String :=
  let json_start : Int := match firstIdxOf '{' result.data with
    | none => -1
    | some i => i
  let json_end : Int := (match lastIdxOf '}' result.data with
    | none => -1
    | some j => (j : Int)) + 1
  if 0 ≤ json_start ∧ json_start < json_end then
    some (String.mk ((result.data.drop json_start.toNat).take (json_end - json_start).toNat))
  else none

/-- The check prompt `_check_for_hallucinations` builds from the session's
stored script and retrieval snapshot. -/
def hallucination_check_prompt_of (s : Session) : String :=
  build_hallucination_check_prompt (s.generated_script.getD "")
    ((s.generation_context.map GenContext.retrieved_context).getD "")

/-- The `ChatbotEngine._check_for_hallucinations`: ask the LLM for a strict-JSON
audit at temperature 0.2, extract the JSON object, and degrade every failure
(LLM error, no JSON object, `json.loads` error) to `noHallucinations`. -/
def check_for_hallucinations {γ : Type} (fx : GenEffects γ) (s : Session) :
    HallucinationReport :=
  match fx.llm (hallucination_check_prompt_of s) none ((1 : ℚ) / 5) with
  | .exn _ => noHallucinations
  | .ok result =>
    match extract_json_str result with
    | none => noHallucinations
    | some json_str =>
      match fx.json_loads json_str with
      | none => noHallucinations
      | some report => report

/-- The `ChatbotEngine._generate_script`. The stage is set to `"generating"`
before the `try` block. The `except` block (lines 407–414) formats its
diagnostic with `traceback.format_exc()`, but engine.py never imports
`traceback`, so evaluating that f-string raises `NameError` before the stage
rollback to `"review"` and the generic failure message are reached; every
failure path therefore leaves the stage at `"generating"` and re-raises.
`HALLUCINATION_MANAGEMENT["factuality_check"]` is `True` in app/config.py, so
the factuality check always runs on success. -/
def generate_script {γ : Type} (fx : GenEffects γ) (s : Session) :
    Session × PyResult String :=
  let session_context :=
    get_strategic_questions.foldl (fun acc q =>
      match alistFind s.strategic_responses q.id with
      | some v => alistInsert acc q.id v
      | none => acc) []
  let s := { s with stage := "generating" }
  let fail : Session × PyResult String := (s, .exn "NameError")
  let query := "Security training for " ++
    pyStr ((alistFind session_context "facility_type").getD (.str "medical facility")) ++
    " focused on " ++
    pyStr ((alistFind session_context "focus_threats").getD (.str "security threats"))
  match fx.retrieve_context query session_context with
  | .exn _ => fail
  | .ok strategic_context =>
    let threats := resolve_threat_list session_context
    let main_threat := resolve_main_threat session_context
    match fx.retrieve_template_examples "seven_step" main_threat with
    | .exn _ => fail
    | .ok template_examples =>
      match fx.retrieve_threat_info threats with
      | .exn _ => fail
      | .ok threat_info =>
        let combined_context :=
          fx.combine_retrieval_results strategic_context template_examples threat_info
        match fx.format_retrieved_content combined_context with
        | .exn _ => fail
        | .ok formatted_context =>
          match fx.build_script_generation_prompt session_context formatted_context with
          | .exn _ => fail
          | .ok script_prompt =>
            match fx.llm script_prompt (some build_system_prompt) ((7 : ℚ) / 10) with
            | .exn _ => fail
            | .ok generated_script =>
              let s := { s with generated_script := some generated_script, generation_context := some ⟨session_context, formatted_context, script_prompt⟩ }
              let s := { s with stage := "followup" }
              let hallucination_check := check_for_hallucinations fx s
              let s :=
                if hallucination_check.has_hallucinations then
                  { s with hallucination_warnings := some (hallucination_warning_text hallucination_check) }
                else s
              (s, .ok generation_success_message)

/-- The body of `ChatbotEngine.get_generated_script` after the session lookup:
the "no script yet" notice, or the script text with any hallucination caveat
block appended. -/
def generated_script_text (s : Session) : String :=
  let generated_script := s.generated_script.getD ""
  if generated_script = "" then
    "Es wurde noch kein Skript generiert. Möchten Sie jetzt ein Skript erstellen?"
  else
    let generated_script :=
      match s.hallucination_warnings with
      | some warnings => generated_script ++ warnings
      | none => generated_script
    "Hier ist das generierte Schulungsskript:\n\n" ++ generated_script

/-- The `ChatbotEngine.get_generated_script`: line 523 indexes
`self.active_sessions[session_id]` directly, so an unknown session id raises
`KeyError` instead of producing a notice. -/
def get_generated_script (e : Engine) (session_id : String) : PyResult String :=
  match alistFind e.active_sessions session_id with
  | none => .exn "KeyError"
  | some s => .ok (generated_script_text s)

/-- The `ChatbotEngine._extract_section_from_script`; the section-heading regex
search (`re.compile(...).search`) is the `section_search` oracle. -/
def extract_section_from_script {γ : Type} (fx : GenEffects γ) (s : Session)
    (section_key : String) : String :=
  let generated_script := s.generated_script.getD ""
  let title := section_title section_key
  match fx.section_search title generated_script with
  | some block => "Hier ist der Abschnitt \x27" ++ title ++ "\x27:\n\n" ++ block
  | none =>
    "Der Abschnitt \x27" ++ title ++ "\x27 konnte im generierten Skript nicht gefunden werden. Möchten Sie das vollständige Skript sehen?"

/-- The `ChatbotEngine._process_followup_request`. -/
def process_followup_request {γ : Type} (fx : GenEffects γ) (s : Session)
    (message : String) : Session × PyResult String :=
  if wordMatch modify_keywords message then
    (s, .ok "Welchen Teil des Skripts möchten Sie anpassen? Bitte geben Sie an, ob es sich um einen bestimmten Abschnitt handelt oder um allgemeine Änderungen.")
  else if wordMatch view_keywords message then
    (s, .ok (generated_script_text s))
  else if wordMatch export_keywords message then
    (s, .ok "Das Skript steht zum Herunterladen bereit. Sie können es über die Exportfunktion der Anwendung als Markdown-Datei speichern.")
  else if wordMatch section_keywords message then
    match TEMPLATE_STRUCTURE.find? (fun info =>
        containsSub (pyLower message) (pyLower info.title) ||
        containsSub (pyLower message) (pyLower info.key)) with
    | some info => (s, .ok (extract_section_from_script fx s info.key))
    | none =>
      (s, .ok "Welchen Abschnitt des Skripts möchten Sie sehen? Bitte geben Sie den Namen des Abschnitts an (z.B. \x27Threat Awareness\x27, \x27Tactic Choice\x27, etc.).")
  else
    (s, .ok "Wie kann ich Ihnen weiterhelfen? Möchten Sie das Skript sehen, bestimmte Abschnitte anpassen oder eine neue Anfrage starten?")

/-- The `ChatbotEngine._process_script_generation_request`. -/
def process_script_generation_request {γ : Type} (fx : GenEffects γ) (s : Session)
    (message : String) : Session × PyResult String :=
  if s.generated_script.getD "" = "" then generate_script fx s
  else if wordMatch modify_keywords message then
    (s, .ok "Welchen Teil des Skripts möchten Sie anpassen? Bitte geben Sie an, ob es sich um einen bestimmten Abschnitt handelt oder um allgemeine Änderungen.")
  else if wordMatch view_keywords message then
    (s, .ok (generated_script_text s))
  else
    (s, .ok (generated_script_text s))

/-- The `ChatbotEngine._process_clarification_response`. -/
def process_clarification_response {γ : Type} (fx : GenEffects γ) (s : Session)
    (message : String) : Session × PyResult String :=
  let clarification_type := s.clarification_type.getD ""
  if clarification_type = "missing_info" then
    let missing_field := s.missing_field.getD ""
    let s :=
      if missing_field != "" then
        { s with strategic_responses := alistInsert s.strategic_responses missing_field (.str message) }
      else s
    let s := { s with stage := "review" }
    let (s, summary) := generate_review_summary s
    (s, .ok summary)
  else if clarification_type = "confirm_generation" then
    if wordMatch confirm_keywords message then
      let s := { s with stage := "script_generation" }
      generate_script fx s
    else
      ({ s with stage := "review" },
       .ok "In Ordnung. Lassen Sie mich wissen, welche Änderungen Sie vornehmen möchten, bevor wir das Skript generieren.")
  else
    let s := { s with stage := "review" }
    let (s, summary) := generate_review_summary s
    (s, .ok summary)

/-- The unknown-session notice of `ChatbotEngine.process_message`. -/
def unknown_session_notice : String :=
  "Es scheint ein Problem mit Ihrer Sitzung zu geben. Bitte starten Sie eine neue Sitzung."

/-- The malformed-stage notice of `ChatbotEngine.process_message`. -/
def unexpected_stage_notice : String :=
  "Es ist ein Fehler aufgetreten. Bitte starten Sie eine neue Sitzung."

/-- The `ChatbotEngine.process_message`: guard against unknown sessions, append
the user message, dispatch on the session stage, append the reply. A handler
exception leaves the partially mutated session in the store (Python mutates
the dict in place) and propagates to the caller. -/
def process_message {γ : Type} (fx : GenEffects γ) (e : Engine)
    (session_id message : String) (now : Int) : Engine × PyResult String :=
  match alistFind e.active_sessions session_id with
  | none => (e, .ok unknown_session_notice)
  | some s =>
    let s := add_message_to_session s "user" message now
    let stage := s.stage
    let step : Session × PyResult String :=
      if stage = "introduction" then
        let s := { s with stage := "strategic_questions" }
        engine_get_next_strategic_question s
      else if stage = "strategic_questions" then
        process_strategic_question_response s message
      else if stage = "clarification" then
        process_clarification_response fx s message
      else if stage = "review" then
        let (s, reply) := process_review_response s message
        (s, .ok reply)
      else if stage = "script_generation" then
        process_script_generation_request fx s message
      else if stage = "followup" then
        process_followup_request fx s message
      else (s, .ok unexpected_stage_notice)
    match step with
    | (s, .ok response) =>
      let s := add_message_to_session s "assistant" response now
      (⟨alistInsert e.active_sessions session_id s⟩, .ok response)
    | (s, .exn err) => (⟨alistInsert e.active_sessions session_id s⟩, .exn err)

/-- The `ChatbotEngine.customize_script_section`: line 547 indexes
`self.active_sessions[session_id]` directly, so an unknown session id raises
`KeyError`. The retrieval call (line 569) sits outside the `try`, so its
exceptions propagate; only the LLM call / section substitution are guarded
(their handler returns the section-failure notice without a `traceback`
slip). -/
def customize_script_section {γ : Type} (fx : GenEffects γ) (e : Engine)
    (session_id section_key customization_request : String) : Engine × PyResult String :=
  match alistFind e.active_sessions session_id with
  | none => (e, .exn "KeyError")
  | some s =>
    let generated_script := s.generated_script.getD ""
    let generation_context := s.generation_context
    if generated_script = "" then
      (e, .ok "Es gibt noch kein generiertes Skript, das angepasst werden könnte.")
    else
      let title := section_title section_key
      match fx.section_search title generated_script with
      | none =>
        (e, .ok ("Der Abschnitt \x27" ++ title ++ "\x27 konnte im Skript nicht gefunden werden."))
      | some current_section =>
        let session_context := (generation_context.map GenContext.session_context).getD []
        let query := title ++ " for " ++
          pyStr ((alistFind session_context "facility_type").getD (.str "medical facility"))
        match fx.retrieve_context query session_context with
        | .exn err => (e, .exn err)
        | .ok section_context =>
          match fx.format_retrieved_content section_context with
          | .exn err => (e, .exn err)
          | .ok formatted_context =>
            let customization_prompt :=
              build_customization_prompt current_section customization_request ++
              "\n\n# RELEVANT CONTEXT\n" ++ formatted_context
            match fx.llm customization_prompt (some build_system_prompt) ((7 : ℚ) / 10) with
            | .exn _ =>
              (e, .ok ("Bei der Anpassung des Abschnitts \x27" ++ title ++ "\x27 ist ein Fehler aufgetreten. Bitte versuchen Sie es erneut."))
            | .ok customized_section =>
              let updated_script := fx.section_sub title customized_section generated_script
              let s := { s with generated_script := some updated_script }
              (⟨alistInsert e.active_sessions session_id s⟩,
               .ok ("Der Abschnitt \x27" ++ title ++ "\x27 wurde erfolgreich angepasst. Möchten Sie das aktualisierte Skript sehen?"))

/-- The raw ChromaDB `collection.query` result as `VectorStore.search` reads
it: `ids`/`documents`/`metadatas`/`distances` are lists of per-query lists
(`metadatas` may be `None`, modelled as `none`; the `distances` key may be
absent, modelled by `has_distances`). -/
structure RawResults where
  ids : List (List String)
  documents : List (List String)
  metadatas : Option (List (List (List (String × String))))
  has_distances : Bool
  distances : List (List ℚ)
  deriving DecidableEq, Repr

/-- A stored document as decoded by `VectorStore.search`: `json.loads` output
(opaque `δ`) or the `{"content": raw}` fallback on a JSON decode error. -/
inductive DocContent (δ : Type) where
  | json (d : δ)
  | rawtext (content : String)
  deriving DecidableEq, Repr

/-- One processed search hit (`{"id", "content", "metadata", "similarity"}`). -/
structure SearchDoc (δ : Type) where
  id : String
  content : DocContent δ
  metadata : List (String × String)
  similarity : Option ℚ
  deriving DecidableEq, Repr

/-- Oracles for `VectorStore.search`'s collaborators: the embedding model
(called before the `try` block), `collection.query`, and `json.loads` for the
stored document bodies. -/
structure VSEffects (δ : Type) where
  embed_query : String → PyResult Nat
  query : String → Nat → Option (List (String × String)) → Nat → PyResult RawResults
  doc_loads : String → Option δ

/-- Python truthiness of the `metadatas` entry (`None` and `[]` are falsy). -/
def metadatasTruthy (o : Option (List (List (List (String × String))))) : Bool :=
  match o with
  | none => false
  | some l => !l.isEmpty

/-- The body of `VectorStore.search`'s result loop for one index `i`:
`ids[0][i]`, the JSON-decoded `documents[0][i]`, `metadatas[0][i]` (or `{}`),
and the distance flipped into a similarity (`1 - min(score, 1)`). Any list
access out of range raises `IndexError`. -/
def build_search_doc {δ : Type} (loads : String → Option δ) (r : RawResults)
    (ids0 : List String) (i : Nat) : PyResult (SearchDoc δ) :=
  match ids0.get? i with
  | none => .exn "IndexError"
  | some doc_id =>
    match r.documents.get? 0 with
    | none => .exn "IndexError"
    | some docs0 =>
      match docs0.get? i with
      | none => .exn "IndexError"
      | some raw =>
        let content : DocContent δ :=
          match loads raw with
          | some d => .json d
          | none => .rawtext raw
        let metaR : PyResult (List (String × String)) :=
          if metadatasTruthy r.metadatas then
            match (r.metadatas.getD []).get? 0 with
            | none => .exn "IndexError"
            | some metas0 =>
              match metas0.get? i with
              | none => .exn "IndexError"
              | some m => .ok m
          else .ok []
        match metaR with
        | .exn e => .exn e
        | .ok metadata =>
          let scoreR : PyResult (Option ℚ) :=
            if r.has_distances then
              match r.distances.get? 0 with
              | none => .exn "IndexError"
              | some dists0 =>
                match dists0.get? i with
                | none => .exn "IndexError"
                | some score => .ok (some score)
            else .ok none
          match scoreR with
          | .exn e => .exn e
          | .ok score =>
            let similarity := score.map (fun sc => 1 - min sc 1)
            .ok ⟨doc_id, content, metadata, similarity⟩

/-- Run the result loop over the given indices, propagating the first
exception. -/
def build_search_docs {δ : Type} (loads : String → Option δ) (r : RawResults)
    (ids0 : List String) : List Nat → PyResult (List (SearchDoc δ))
  | [] => .ok []
  | i :: rest =>
    match build_search_doc loads r ids0 i with
    | .exn e => .exn e
    | .ok d =>
      match build_search_docs loads r ids0 rest with
      | .exn e => .exn e
      | .ok ds => .ok (d :: ds)

/-- The whole `try` body of `VectorStore.search`: query the collection, then
process `range(len(results["ids"][0]))`. -/
def query_and_process {δ : Type} (fx : VSEffects δ) (collection_name : String)
    (vec : Nat) (filter_metadata : Option (List (String × String))) (limit : Nat) :
    PyResult (List (SearchDoc δ)) :=
  match fx.query collection_name vec filter_metadata limit with
  | .exn e => .exn e
  | .ok results =>
    match results.ids.get? 0 with
    | none => .exn "IndexError"
    | some ids0 => build_search_docs fx.doc_loads results ids0 (List.range ids0.length)

/-- The `VectorStore.search`: `_get_collection` raises `ValueError` for unknown
collection names and the embedding call sits before the `try` block, but any
exception from the collection query or the result processing is caught and
degraded to the empty result list. -/
def search {δ : Type} (fx : VSEffects δ) (collection_name query : String)
    (filter_metadata : Option (List (String × String))) (limit : Nat) :
    PyResult (List (SearchDoc δ)) :=
  if !(["papers", "templates", "threats"].contains collection_name) then
    .exn "ValueError"
  else
    match fx.embed_query query with
    | .exn e => .exn e
    | .ok vec =>
      match query_and_process fx collection_name vec filter_metadata limit with
      | .exn _ => .ok []
      | .ok documents => .ok documents

/-- The `VectorStore.search_all`: one `search` per named collection, assembled
into a dict in insertion order. -/
def search_all {δ : Type} (fx : VSEffects δ) (query : String)
    (limit_per_collection : Nat) : PyResult (List (String × List (SearchDoc δ))) :=
  match search fx "papers" query none limit_per_collection with
  | .exn e => .exn e
  | .ok papers =>
    match search fx "templates" query none limit_per_collection with
    | .exn e => .exn e
    | .ok templates =>
      match search fx "threats" query none limit_per_collection with
      | .exn e => .exn e
      | .ok threats =>
        .ok [("papers", papers), ("templates", templates), ("threats", threats)]

/-- The stage names the dialogue state machine of app/chatbot/dialogue.py can
ever hold (initial stage plus every stage `get_next_question` assigns). -/
def knownStages : List String :=
  ["introduction", "strategic_questions", "clarification", "contextual_questions",
   "summary", "revision", "complete"]

/-- Every stored dialogue state carries a known stage name. -/
def stagesOk (m : DialogueManager) : Prop :=
  ∀ p ∈ m.dialogue_states, p.2.current_stage ∈ knownStages

/-- A benign effects fixture: every collaborator succeeds with fixed data. -/
def okEffects : GenEffects Unit :=
  { retrieve_context := fun _ _ => .ok ()
    retrieve_template_examples := fun _ _ => .ok ()
    retrieve_threat_info := fun _ => .ok ()
    combine_retrieval_results := fun _ _ _ => ()
    format_retrieved_content := fun _ => .ok "KONTEXT"
    build_script_generation_prompt := fun _ _ => .ok "PROMPT"
    llm := fun _ _ _ => .ok "SKRIPT"
    json_loads := fun _ => none
    section_search := fun _ _ => none
    section_sub := fun _ replacement _ => replacement }

/-- An effects fixture whose strategic retrieval raises (e.g. the vector
store is unreachable). -/
def failingRetrievalEffects : GenEffects Unit :=
  { okEffects with retrieve_context := fun _ _ => .exn "ConnectionError" }

/-- A session that has answered all strategic questions and just confirmed
generation. -/
def answeredSession : Session :=
  { create_session 0 with
      stage := "clarification"
      clarification_type := some "confirm_generation"
      strategic_responses :=
        [("facility_type", .str "Krankenhaus"),
         ("target_audience", .str "Pflegepersonal"),
         ("duration", .str "60"),
         ("focus_threats", .str "Phishing"),
         ("skill_level", .str "Mittel"),
         ("regulatory_requirements", .str "DSGVO"),
         ("custom_scenarios", .str "Keine")] }

/-- An engine whose only session is `answeredSession`. -/
def engineWithConfirm : Engine := ⟨[("s1", answeredSession)]⟩

/-- A concrete hallucination report for the factuality-check fixtures. -/
def sampleReport : HallucinationReport :=
  ⟨true, [⟨"USB-Sticks sind immer sicher", "nicht durch den Kontext gedeckt", "streichen"⟩]⟩

/-- A response text with prose around a JSON object. -/
def sampleHalluResponse : String := "Analyse folgt \x7b\"has_hallucinations\": true\x7d Ende"

/-- The JSON slice between the first `{` and the last `}` of
`sampleHalluResponse`. -/
def sampleHalluJson : String := "\x7b\"has_hallucinations\": true\x7d"

/-- Effects whose factuality-check LLM call returns `sampleHalluResponse` and
whose `json.loads` decodes exactly its JSON slice to `sampleReport`. -/
def halluEffects : GenEffects Unit :=
  { okEffects with
      llm := fun _ _ _ => .ok sampleHalluResponse
      json_loads := fun s => if s = sampleHalluJson then some sampleReport else none }

/-- A vector-store effects fixture whose collection query raises. -/
def failingQueryVS : VSEffects Unit :=
  { embed_query := fun _ => .ok 0
    query := fun _ _ _ _ => .exn "ChromaError"
    doc_loads := fun _ => none }

/-- A vector-store effects fixture whose query result is ragged (`documents`
misses the entry for the second id), so the result-processing loop raises
`IndexError`. -/
def raggedVS : VSEffects Unit :=
  { embed_query := fun _ => .ok 0
    query := fun _ _ _ _ => .ok ⟨[["id1", "id2"]], [["nur ein Dokument"]], none, false, []⟩
    doc_loads := fun _ => none }

/-- The dialogue state `initialize_dialogue` creates. -/
def freshState : DialogueState := (initialize_dialogue ⟨[]⟩ "s" 0).2

/-- A dialogue state in the terminal stage. -/
def completeState : DialogueState := { freshState with current_stage := "complete" }

/-- A manager holding one completed dialogue. -/
def completeManager : DialogueManager := ⟨[("s", completeState)]⟩

/-- A manager with one stale and one fresh session (timestamps in seconds). -/
def expiryManager : DialogueManager :=
  ⟨[("alt", { freshState with last_updated := 0 }),
    ("neu", { freshState with last_updated := 90000 })]⟩

theorem alistFind_insert_self {α : Type} (d : List (String × α)) (k : String) (v : α) :
    alistFind (alistInsert d k v) k = some v := by
  induction d with
  | nil => simp [alistInsert, alistFind]
  | cons p ps ih =>
    by_cases h : p.1 = k
    · simp [alistInsert, h, alistFind]
    · simp [alistInsert, h, alistFind, ih]

theorem mem_alistInsert {α : Type} {d : List (String × α)} {k : String} {v : α}
    {q : String × α} (h : q ∈ alistInsert d k v) : q = (k, v) ∨ q ∈ d := by
  induction d with
  | nil => simp [alistInsert] at h; simp [h]
  | cons p ps ih =>
    by_cases hk : p.1 = k
    · simp [alistInsert, hk] at h
      rcases h with h | h
      · exact Or.inl h
      · exact Or.inr (List.mem_cons_of_mem _ h)
    · simp only [alistInsert, hk, if_false, List.mem_cons] at h
      rcases h with h | h
      · exact Or.inr (by simp [h])
      · rcases ih h with h' | h'
        · exact Or.inl h'
        · exact Or.inr (List.mem_cons_of_mem _ h')

theorem countKey_insert {α : Type} {d : List (String × α)} {k : String} (v : α)
    (h : countKey d k ≤ 1) : countKey (alistInsert d k v) k = 1 := by
  induction d with
  | nil => simp [alistInsert, countKey]
  | cons p ps ih =>
    by_cases hk : p.1 = k
    · have hps : countKey ps k = 0 := by
        simp only [countKey, hk, if_true] at h
        omega
      simp [alistInsert, hk, countKey, hps]
    · have hle : countKey ps k ≤ 1 := by
        simp only [countKey, hk, if_false] at h
        omega
      simp [alistInsert, hk, countKey, ih hle]

theorem strData_append (s t : String) : (s ++ t).data = s.data ++ t.data := rfl

theorem charsPre_self_append (pat suf : List Char) : charsPre pat (pat ++ suf) = true := by
  induction pat with
  | nil => simp [charsPre]
  | cons a ps ih => simp [charsPre, ih]

theorem charsSub_nil_pat (l : List Char) : charsSub [] l = true := by
  cases l with
  | nil => simp [charsSub, charsPre]
  | cons b ls => simp [charsSub, charsPre]

theorem charsSub_self_append (pat suf : List Char) :
    charsSub pat (pat ++ suf) = true := by
  cases pat with
  | nil => simpa using charsSub_nil_pat suf
  | cons a ps =>
    simp only [List.cons_append, charsSub]
    have := charsPre_self_append (a :: ps) suf
    simp only [List.cons_append] at this
    simp [this]

theorem charsSub_of_decomp (pre pat suf : List Char) :
    charsSub pat (pre ++ (pat ++ suf)) = true := by
  induction pre with
  | nil => simpa using charsSub_self_append pat suf
  | cons c cs ih =>
    simp only [List.cons_append, charsSub, List.append_eq, ih, Bool.or_true]

theorem containsSub_of_mid (a b c : String) : containsSub (a ++ b ++ c) b = true := by
  have hd : (a ++ b ++ c).data = a.data ++ (b.data ++ c.data) := by
    simp [strData_append]
  simp only [containsSub, hd]
  exact charsSub_of_decomp a.data b.data c.data

theorem doublePercent_of_no_percent {l : List Char} (h : '%' ∉ l) :
    doublePercent l = l := by
  induction l with
  | nil => simp [doublePercent]
  | cons c cs ih =>
    simp only [List.mem_cons, not_or] at h
    have hc : ¬ c = '%' := fun he => h.1 he.symm
    simp [doublePercent, hc, ih h.2]

theorem safePercent_of_no_percent {s : String} (h : '%' ∉ s.data) :
    safePercent s = s := by
  simp [safePercent, doublePercent_of_no_percent h]

theorem count_doublePercent (l : List Char) :
    (doublePercent l).count '%' = 2 * l.count '%' := by
  induction l with
  | nil => simp [doublePercent]
  | cons c cs ih =>
    by_cases hc : c = '%'
    · simp [doublePercent, hc, List.count_cons, ih]
      omega
    · simp [doublePercent, hc, List.count_cons, ih]

theorem firstIdxOf_eq_none_iff (c : Char) (l : List Char) :
    firstIdxOf c l = none ↔ c ∉ l := by
  induction l with
  | nil => simp [firstIdxOf]
  | cons x xs ih =>
    by_cases hx : x = c
    · simp [firstIdxOf, hx]
    · simp only [firstIdxOf, hx, if_false, Option.map_eq_none', ih, List.mem_cons]
      constructor
      · intro h hc
        rcases hc with hc | hc
        · exact hx hc.symm
        · exact h hc
      · intro h hc
        exact h (Or.inr hc)

theorem firstIdxOf_get {c : Char} {l : List Char} {i : Nat}
    (h : firstIdxOf c l = some i) : l.get? i = some c := by
  induction l generalizing i with
  | nil => simp [firstIdxOf] at h
  | cons x xs ih =>
    by_cases hx : x = c
    · simp only [firstIdxOf, hx, if_true, Option.some.injEq] at h
      subst h
      simp [hx]
    · simp only [firstIdxOf, hx, if_false, Option.map_eq_some'] at h
      obtain ⟨j, hj, hji⟩ := h
      subst hji
      simpa using ih hj

theorem firstIdxOf_min {c : Char} {l : List Char} {i : Nat}
    (h : firstIdxOf c l = some i) :
    ∀ i', i' < i → l.get? i' ≠ some c := by
  induction l generalizing i with
  | nil => simp [firstIdxOf] at h
  | cons x xs ih =>
    by_cases hx : x = c
    · simp only [firstIdxOf, hx, if_true, Option.some.injEq] at h
      subst h
      intro i' hi'
      exact absurd hi' (Nat.not_lt_zero _)
    · simp only [firstIdxOf, hx, if_false, Option.map_eq_some'] at h
      obtain ⟨j, hj, hji⟩ := h
      subst hji
      intro i' hi'
      cases i' with
      | zero => simpa using fun he => hx he
      | succ i'' =>
        simpa using ih hj i'' (Nat.lt_of_succ_lt_succ hi')

theorem lastIdxOf_eq_none_iff (c : Char) (l : List Char) :
    lastIdxOf c l = none ↔ c ∉ l := by
  induction l with
  | nil => simp [lastIdxOf]
  | cons x xs ih =>
    cases hxs : lastIdxOf c xs with
    | some j =>
      have hc : c ∈ xs := by
        by_contra hc
        rw [ih.mpr hc] at hxs
        exact Option.noConfusion hxs
      simp [lastIdxOf, hxs, hc]
    | none =>
      by_cases hx : x = c
      · simp [lastIdxOf, hxs, hx]
      · simp only [lastIdxOf, hxs, hx, if_false, List.mem_cons]
        constructor
        · intro _ hc
          rcases hc with hc | hc
          · exact hx hc.symm
          · exact (ih.mp hxs) hc
        · intro _
          trivial

theorem lastIdxOf_get {c : Char} {l : List Char} {j : Nat}
    (h : lastIdxOf c l = some j) : l.get? j = some c := by
  induction l generalizing j with
  | nil => simp [lastIdxOf] at h
  | cons x xs ih =>
    cases hxs : lastIdxOf c xs with
    | some j0 =>
      simp only [lastIdxOf, hxs, Option.some.injEq] at h
      subst h
      simpa using ih hxs
    | none =>
      by_cases hx : x = c
      · simp only [lastIdxOf, hxs, hx, if_true, Option.some.injEq] at h
        subst h
        simp [hx]
      · simp [lastIdxOf, hxs, hx] at h

theorem lastIdxOf_max {c : Char} {l : List Char} {j : Nat}
    (h : lastIdxOf c l = some j) :
    ∀ j', j < j' → l.get? j' ≠ some c := by
  induction l generalizing j with
  | nil => simp [lastIdxOf] at h
  | cons x xs ih =>
    cases hxs : lastIdxOf c xs with
    | some j0 =>
      simp only [lastIdxOf, hxs, Option.some.injEq] at h
      subst h
      intro j' hj'
      cases j' with
      | zero => exact absurd hj' (Nat.not_lt_zero _)
      | succ j'' =>
        simpa using ih hxs j'' (Nat.lt_of_succ_lt_succ hj')
    | none =>
      by_cases hx : x = c
      · simp only [lastIdxOf, hxs, hx, if_true, Option.some.injEq] at h
        subst h
        intro j' hj'
        cases j' with
        | zero => exact absurd hj' (Nat.lt_irrefl _)
        | succ j'' =>
          intro hget
          have : c ∈ xs := List.get?_mem (by simpa using hget)
          exact (lastIdxOf_eq_none_iff c xs).mp hxs this
      · simp [lastIdxOf, hxs, hx] at h

theorem alistKeys_cons {α : Type} (p : String × α) (ps : List (String × α)) :
    alistKeys (p :: ps) = p.1 :: alistKeys ps := rfl

theorem alistKeys_filter_subset {α : Type} (d : List (String × α))
    (E : String × α → Bool) : ∀ k ∈ alistKeys (d.filter E), k ∈ alistKeys d := by
  intro k hk
  simp only [alistKeys, List.mem_map] at hk ⊢
  obtain ⟨p, hp, hpk⟩ := hk
  exact ⟨p, (List.mem_filter.mp hp).1, hpk⟩

theorem alistErase_eq_filter {α : Type} {d : List (String × α)}
    (hn : (alistKeys d).Nodup) (k : String) :
    alistErase d k = d.filter (fun p => !decide (p.1 = k)) := by
  induction d with
  | nil => rfl
  | cons p ps ih =>
    have hn' := List.nodup_cons.mp (by simpa [alistKeys_cons] using hn)
    by_cases hk : p.1 = k
    · have hps : ∀ q ∈ ps, (!decide (q.1 = k)) = true := by
        intro q hq
        have hq1 : q.1 ∈ alistKeys ps := by
          simp only [alistKeys, List.mem_map]
          exact ⟨q, hq, rfl⟩
        have : q.1 ≠ k := fun he => hn'.1 (by rw [hk, ← he]; exact hq1)
        simpa using this
      simp [alistErase, hk, List.filter_cons, (List.filter_eq_self).mpr hps]
    · simp [alistErase, hk, List.filter_cons, ih hn'.2]

theorem alistErase_sublist {α : Type} (d : List (String × α)) (k : String) :
    List.Sublist (alistErase d k) d := by
  induction d with
  | nil => simp [alistErase]
  | cons p ps ih =>
    by_cases hk : p.1 = k
    · simp only [alistErase, hk, if_true]
      exact List.sublist_cons_self p ps
    · simpa [alistErase, hk] using ih.cons₂ p

theorem nodup_keys_filter {α : Type} {d : List (String × α)}
    (hn : (alistKeys d).Nodup) (E : String × α → Bool) :
    (alistKeys (d.filter E)).Nodup := by
  have hsub : List.Sublist (d.filter E) d := d.filter_sublist
  exact (hsub.map Prod.fst).nodup hn

theorem foldl_erase_eq_filter {α : Type} (ks : List String) (d : List (String × α))
    (hn : (alistKeys d).Nodup) :
    List.foldl (fun acc k => alistErase acc k) d ks
      = d.filter (fun p => decide (p.1 ∉ ks)) := by
  induction ks generalizing d with
  | nil => simp
  | cons k ks ih =>
    rw [List.foldl_cons, alistErase_eq_filter hn k,
        ih _ (nodup_keys_filter hn _), List.filter_filter]
    apply List.filter_congr
    intro p _
    by_cases h1 : p.1 = k <;> by_cases h2 : p.1 ∈ ks <;> simp [h1, h2]

theorem mem_keys_filter_iff {α : Type} {d : List (String × α)}
    (hn : (alistKeys d).Nodup) (E : String × α → Bool) {p : String × α}
    (hp : p ∈ d) : p.1 ∈ alistKeys (d.filter E) ↔ E p = true := by
  induction d with
  | nil => cases hp
  | cons q qs ih =>
    have hn' := List.nodup_cons.mp (by simpa [alistKeys_cons] using hn)
    rcases List.mem_cons.mp hp with hpq | hpq
    · subst hpq
      by_cases hE : E p
      · simp [List.filter_cons, hE, alistKeys_cons]
      · simp only [List.filter_cons, hE, if_false, Bool.false_eq_true, iff_false]
        intro hmem
        exact hn'.1 (alistKeys_filter_subset qs E _ hmem)
    · have hp1 : p.1 ∈ alistKeys qs := by
        simp only [alistKeys, List.mem_map]
        exact ⟨p, hpq, rfl⟩
      have hpq1 : ¬ p.1 = q.1 := fun he => hn'.1 (he ▸ hp1)
      by_cases hE : E q
      · simp [List.filter_cons, hE, alistKeys_cons, hpq1, ih hn'.2 hpq]
      · simp [List.filter_cons, hE, ih hn'.2 hpq]

theorem mem_of_alistFind {α : Type} {d : List (String × α)} {k : String} {v : α}
    (h : alistFind d k = some v) : (k, v) ∈ d := by
  induction d with
  | nil => simp [alistFind] at h
  | cons p ps ih =>
    by_cases hk : p.1 = k
    · simp only [alistFind, hk, if_true, Option.some.injEq] at h
      subst h
      subst hk
      simp
    · simp only [alistFind, hk, if_false] at h
      exact List.mem_cons_of_mem _ (ih h)

theorem stagesOk_insert {m : DialogueManager} {sid : String} {st : DialogueState}
    (hm : stagesOk m) (hst : st.current_stage ∈ knownStages) :
    stagesOk ⟨alistInsert m.dialogue_states sid st⟩ := by
  intro p hp
  rcases mem_alistInsert hp with h | h
  · rw [h]
    exact hst
  · exact hm p h

theorem update_contextual_stage (st : DialogueState) :
    (update_contextual_questions st).current_stage = st.current_stage := rfl

theorem check_missing_stage (st : DialogueState) :
    (check_for_missing_information st).current_stage = st.current_stage := rfl

theorem gnsq_stage (st : DialogueState) :
    (get_next_strategic_question st).1.current_stage = st.current_stage := by
  unfold get_next_strategic_question
  cases st.strategic_questions.get? st.next_question_index <;> simp

theorem stagesOk_process_response {m : DialogueManager} {sid qid : String}
    {v : Value} {t : Int} (hm : stagesOk m) :
    stagesOk (process_response m sid qid v t).1 := by
  unfold process_response
  cases hf : alistFind m.dialogue_states sid with
  | none =>
    simp only [initialize_dialogue]
    exact stagesOk_insert hm (by simp [knownStages])
  | some st =>
    have hst := hm (sid, st) (mem_of_alistFind hf)
    simp only
    apply stagesOk_insert hm
    split <;> split <;> simp [update_contextual_questions, hst]

theorem stagesOk_get_next_question {m : DialogueManager} {sid : String}
    (hm : stagesOk m) : stagesOk (get_next_question m sid).1 := by
  unfold get_next_question
  cases hf : alistFind m.dialogue_states sid with
  | none => exact hm
  | some st =>
    have hst := hm (sid, st) (mem_of_alistFind hf)
    simp only
    by_cases h1 : st.current_stage = "introduction"
    · simp only [h1, if_true]
      rcases hgn : get_next_strategic_question { st with current_stage := "strategic_questions" } with ⟨st', q'⟩
      have : st'.current_stage = "strategic_questions" := by
        have := gnsq_stage { st with current_stage := "strategic_questions" }
        rw [hgn] at this
        exact this
      exact stagesOk_insert hm (by simp [this, knownStages])
    · simp only [h1, if_false]
      by_cases h2 : st.current_stage = "strategic_questions"
      · simp only [h2, if_true]
        rcases hgn : get_next_strategic_question st with ⟨st', q'⟩
        have hst' : st'.current_stage = st.current_stage := by
          have := gnsq_stage st
          rw [hgn] at this
          exact this
        simp only [hgn]
        cases q' with
        | some q =>
          split
          · exact stagesOk_insert hm (by rw [hst']; exact hst)
          · simp_all
        | none =>
          split
          · simp_all
          · split <;>
              exact stagesOk_insert hm (by simp [check_missing_stage, knownStages])
      · simp only [h2, if_false]
        by_cases h3 : st.current_stage = "clarification"
        · simp only [h3, if_true]
          rcases hclar : get_next_clarification_question st with _ | q
          · simp only [hclar]
            split
            · exact stagesOk_insert hm
                (by simp only [check_missing_stage]; exact hst)
            · exact stagesOk_insert hm (by simp [check_missing_stage, knownStages])
          · simp only [hclar]
            exact hm
        · simp only [h3, if_false]
          by_cases h4 : st.current_stage = "contextual_questions"
          · simp only [h4, if_true]
            rcases hctx : get_next_contextual_question st with _ | q
            · simp only [hctx]
              exact stagesOk_insert hm (by simp [knownStages])
            · simp only [hctx]
              exact hm
          · simp only [h4, if_false]
            by_cases h5 : st.current_stage = "summary"
            · simp only [h5, if_true]
              split
              · exact stagesOk_insert hm (by simp [knownStages])
              · exact stagesOk_insert hm (by simp [knownStages])
            · simp only [h5, if_false]
              exact hm

theorem stagesOk_runStep {m : DialogueManager} {sid : String} (hm : stagesOk m)
    (s : Step) : stagesOk (runStep sid m s) := by
  cases s with
  | advance => exact stagesOk_get_next_question hm
  | answer qid v => exact stagesOk_process_response hm

theorem stageOf_mem {m : DialogueManager} {sid : String} (hm : stagesOk m) :
    stageOf m sid = "" ∨ stageOf m sid ∈ knownStages := by
  unfold stageOf
  cases hf : alistFind m.dialogue_states sid with
  | none => simp
  | some st => exact Or.inr (hm (sid, st) (mem_of_alistFind hf))

theorem stageTrace_mem {sid : String} :
    ∀ (steps : List Step) (m : DialogueManager), stagesOk m →
      ∀ stg ∈ stageTrace sid m steps, stg = "" ∨ stg ∈ knownStages := by
  intro steps
  induction steps with
  | nil =>
    intro m hm stg hstg
    simp only [stageTrace, List.mem_singleton] at hstg
    subst hstg
    exact stageOf_mem hm
  | cons s rest ih =>
    intro m hm stg hstg
    simp only [stageTrace, List.mem_cons] at hstg
    rcases hstg with h | h
    · subst h
      exact stageOf_mem hm
    · exact ih (runStep sid m s) (stagesOk_runStep hm s) stg h

theorem not_mem_take_of_min {c : Char} {l : List Char} {i : Nat}
    (hmin : ∀ i', i' < i → l.get? i' ≠ some c) : c ∉ l.take i := by
  intro hc
  obtain ⟨n, hget⟩ := List.mem_iff_get?.mp hc
  have hn : n < i := by
    have hlt := (List.get?_eq_some.mp hget).1
    rw [List.length_take] at hlt
    omega
  rw [List.get?_take hn] at hget
  exact hmin n hn hget

theorem not_mem_drop_of_max {c : Char} {l : List Char} {j : Nat}
    (hmax : ∀ j', j < j' → l.get? j' ≠ some c) : c ∉ l.drop (j + 1) := by
  intro hc
  obtain ⟨n, hget⟩ := List.mem_iff_get?.mp hc
  rw [List.get?_drop] at hget
  exact hmax (j + 1 + n) (by omega) hget

theorem eq_append_singleton_of_get_last {α : Type} {xs : List α} {a : α}
    (h : xs.get? (xs.length - 1) = some a) : ∃ ys, xs = ys ++ [a] := by
  induction xs with
  | nil => simp at h
  | cons x xs ih =>
    cases xs with
    | nil =>
      simp only [List.length_singleton, Nat.sub_self, List.get?_cons_zero,
        Option.some.injEq] at h
      subst h
      exact ⟨[], rfl⟩
    | cons y ys =>
      have hlen : (x :: y :: ys).length - 1 = ((y :: ys).length - 1) + 1 := by
        simp
      rw [hlen, List.get?_cons_succ] at h
      obtain ⟨zs, hz⟩ := ih h
      exact ⟨x :: zs, by rw [List.cons_append, ← hz]⟩

theorem extract_json_str_some_spec {raw js : String}
    (h : extract_json_str raw = some js) :
    ∃ i j, firstIdxOf '{' raw.data = some i ∧ lastIdxOf '}' raw.data = some j ∧
      i ≤ j ∧ js.data = (raw.data.drop i).take (j + 1 - i) := by
  cases hf : firstIdxOf '{' raw.data with
  | none =>
    simp only [extract_json_str, hf] at h
    split at h
    · next hcond => exfalso; omega
    · exact Option.noConfusion h
  | some i =>
    cases hl : lastIdxOf '}' raw.data with
    | none =>
      simp only [extract_json_str, hf, hl] at h
      split at h
      · next hcond => exfalso; omega
      · exact Option.noConfusion h
    | some j =>
      simp only [extract_json_str, hf, hl] at h
      split at h
      · next hcond =>
        have hij : i ≤ j := by omega
        have hstart : ((i : Int)).toNat = i := by omega
        have hspan : ((j : Int) + 1 - (i : Int)).toNat = j + 1 - i := by omega
        refine ⟨i, j, rfl, rfl, hij, ?_⟩
        have hjs := Option.some.inj h
        rw [← hjs]
        rw [hstart, hspan]
      · exact Option.noConfusion h

theorem extract_json_str_none_spec {raw : String} (h : extract_json_str raw = none) :
    ¬ ∃ i j, i ≤ j ∧ raw.data.get? i = some '{' ∧ raw.data.get? j = some '}' := by
  rintro ⟨i, j, hij, hgi, hgj⟩
  have hmem_i : '{' ∈ raw.data := List.get?_mem hgi
  have hmem_j : '}' ∈ raw.data := List.get?_mem hgj
  cases hf : firstIdxOf '{' raw.data with
  | none => exact ((firstIdxOf_eq_none_iff _ _).mp hf) hmem_i
  | some i0 =>
    cases hl : lastIdxOf '}' raw.data with
    | none => exact ((lastIdxOf_eq_none_iff _ _).mp hl) hmem_j
    | some j0 =>
      have hi0 : i0 ≤ i := by
        by_contra hlt
        exact firstIdxOf_min hf i (by omega) hgi
      have hj0 : j ≤ j0 := by
        by_contra hlt
        exact lastIdxOf_max hl j (by omega) hgj
      simp only [extract_json_str, hf, hl] at h
      split at h
      · exact Option.noConfusion h
      · next hcond => exact hcond (by constructor <;> omega)

theorem extract_json_str_decomp {raw js : String}
    (h : extract_json_str raw = some js) :
    ∃ pre mid post, raw.data = pre ++ js.data ++ post ∧ '{' ∉ pre ∧ '}' ∉ post ∧
      js.data = '{' :: (mid ++ ['}']) := by
  obtain ⟨i, j, hf, hl, hij, hseg⟩ := extract_json_str_some_spec h
  have hfg := firstIdxOf_get hf
  have hlg := lastIdxOf_get hl
  have hjlt : j < raw.data.length := by
    have := (List.get?_eq_some.mp hlg).1
    exact this
  have hilt : i < raw.data.length := by
    have := (List.get?_eq_some.mp hfg).1
    exact this
  have hij' : i < j := by
    rcases Nat.lt_or_ge i j with h' | h'
    · exact h'
    · exfalso
      have hieq : i = j := Nat.le_antisymm hij h'
      rw [hieq, hlg] at hfg
      simp at hfg
  have hseglen : js.data.length = j + 1 - i := by
    rw [hseg, List.length_take, List.length_drop]
    omega
  have hhead : js.data.get? 0 = some '{' := by
    rw [hseg, List.get?_take (by omega : 0 < j + 1 - i), List.get?_drop]
    simpa using hfg
  have hlast : js.data.get? (js.data.length - 1) = some '}' := by
    rw [hseglen, hseg]
    have hsub : j + 1 - i - 1 = j - i := by omega
    rw [hsub, List.get?_take (by omega : j - i < j + 1 - i), List.get?_drop]
    have : i + (j - i) = j := by omega
    rw [this]
    exact hlg
  obtain ⟨ys, hys⟩ := eq_append_singleton_of_get_last hlast
  have hshape : ∃ mid, js.data = '{' :: (mid ++ ['}']) := by
    cases hy : ys with
    | nil =>
      rw [hy] at hys
      rw [hys] at hhead
      simp at hhead
    | cons y ys' =>
      rw [hy] at hys
      rw [hys] at hhead
      simp only [List.cons_append, List.get?_cons_zero, Option.some.injEq] at hhead
      exact ⟨ys', by rw [hys, List.cons_append, hhead]⟩
  obtain ⟨mid, hmid⟩ := hshape
  refine ⟨raw.data.take i, mid, raw.data.drop (j + 1), ?_, ?_, ?_, hmid⟩
  · rw [hseg]
    have h1 : raw.data = raw.data.take i ++ raw.data.drop i :=
      (List.take_append_drop i raw.data).symm
    have h2 : raw.data.drop i =
        (raw.data.drop i).take (j + 1 - i) ++ (raw.data.drop i).drop (j + 1 - i) :=
      (List.take_append_drop (j + 1 - i) (raw.data.drop i)).symm
    have h3 : (raw.data.drop i).drop (j + 1 - i) = raw.data.drop (j + 1) := by
      rw [List.drop_drop]
      congr 1
      omega
    rw [List.append_assoc, ← h3, ← h2, ← h1]
  · exact not_mem_take_of_min (firstIdxOf_min hf)
  · exact not_mem_drop_of_max (lastIdxOf_max hl)

theorem strMk_data (l : List Char) : (String.mk l).data = l := rfl

theorem strAppend_assoc (a b c : String) : a ++ b ++ c = a ++ (b ++ c) :=
  String.ext (by simp [strData_append, List.append_assoc])

theorem containsSub_of_eq (pre pat suf s : String) (h : s = pre ++ (pat ++ suf)) :
    containsSub s pat = true := by
  subst h
  simp only [containsSub, strData_append]
  exact charsSub_of_decomp _ _ _

theorem process_response_found {m : DialogueManager} {sid qid : String} {v : Value}
    {t : Int} {st : DialogueState} (h : alistFind m.dialogue_states sid = some st) :
    (process_response m sid qid v t).1.dialogue_states
        = alistInsert m.dialogue_states sid (process_response m sid qid v t).2 ∧
    (process_response m sid qid v t).2.responses = alistInsert st.responses qid v := by
  unfold process_response
  simp only [h]
  constructor
  · trivial
  · split <;> split <;> rfl

/-- Claim C1 — counterexample. The claim asserts that the stages visited from a
fresh dialogue are exactly `introduction, context_questions,
template_questions, summary, complete`; but already the first `advance`
(`get_next_question`) moves the fresh dialogue to `strategic_questions`, a
stage name outside the claimed sequence. -/
theorem c1_counterexample_stage_names :
    stageTrace "s" freshManager [Step.advance] = ["introduction", "strategic_questions"] ∧
    "strategic_questions" ∉
      ["introduction", "context_questions", "template_questions", "summary", "complete"] := by
  constructor
  · rfl
  · decide

/-- Claim C1 — amended: from a freshly created dialogue, a complete interview
(every asked question answered, required fields truthy) visits exactly
`introduction, strategic_questions, contextual_questions, summary, complete`;
no run from a fresh dialogue ever visits a stage named `context_questions` or
`template_questions`; and once the stage is `complete`, every further
`get_next_question` call returns the manager unchanged (idempotent terminal
state). -/
theorem c1_stage_machine :
    dedupConsec (stageTrace "s" freshManager fullRunSteps) =
      ["introduction", "strategic_questions", "contextual_questions", "summary", "complete"] ∧
    (∀ (steps : List Step) (stg : String), stg ∈ stageTrace "s" freshManager steps →
      stg ≠ "context_questions" ∧ stg ≠ "template_questions") ∧
    (∀ (m : DialogueManager) (sid : String) (st : DialogueState),
      alistFind m.dialogue_states sid = some st → st.current_stage = "complete" →
      get_next_question m sid = (m, none)) := by
  refine ⟨by rfl, ?_, ?_⟩
  · intro steps stg hmem
    have hok : stagesOk freshManager := by
      intro p hp
      have hp' : p = ("s", freshState) := by
        simpa [freshManager, initialize_dialogue, alistInsert, freshState] using hp
      rw [hp']
      decide
    rcases stageTrace_mem steps freshManager hok stg hmem with h | h
    · constructor <;> (rw [h]; decide)
    · constructor <;> (intro heq; rw [heq] at h; revert h; decide)
  · intro m sid st hfind hstage
    unfold get_next_question
    simp [hfind, hstage]

/-- Witness for the amended C1: the terminal-stage clause applied to a
concrete completed dialogue. -/
theorem c1_stage_machine_witness :
    get_next_question completeManager "s" = (completeManager, none) :=
  c1_stage_machine.2.2 completeManager "s" completeState rfl rfl

/-- Claim C2 — the code contradicts its own error-handling intent (code bug).
With a failing retrieval, the confirmed-generation message makes
`_generate_script` enter its `except` block, whose logging f-string
references the never-imported `traceback`; so a `NameError` propagates out of
`process_message` instead of the generic failure notice, and the session is
left in the internal stage `"generating"` rather than rolled back to
`"review"`. The generated script does remain unset, as the claim states. -/
theorem c2_generation_failure_raises :
    (process_message failingRetrievalEffects engineWithConfirm "s1" "ja" 5).2
        = PyResult.exn "NameError" ∧
    (process_message failingRetrievalEffects engineWithConfirm "s1" "ja" 5).2
        ≠ PyResult.ok generation_failure_message ∧
    ((alistFind (process_message failingRetrievalEffects engineWithConfirm "s1" "ja" 5).1.active_sessions
        "s1").map Session.stage) = some "generating" ∧
    ((alistFind (process_message failingRetrievalEffects engineWithConfirm "s1" "ja" 5).1.active_sessions
        "s1").map Session.generated_script) = some none := by
  refine ⟨by rfl, by decide, by rfl, by rfl⟩

/-- Claim C3 — counterexample. A substitution value containing a literal `%`
("50% der Mitarbeiter ...") does not appear unchanged in the customization
prompt: the escaping step doubles the `%`, so the output contains
"50%% der Mitarbeiter" and not the original text. -/
theorem c3_counterexample_percent_doubling :
    containsSub
      (build_customization_prompt "50% der Mitarbeiter oeffnen Phishing-Mails" "Bitte kuerzen")
      "50% der Mitarbeiter" = false ∧
    containsSub
      (build_customization_prompt "50% der Mitarbeiter oeffnen Phishing-Mails" "Bitte kuerzen")
      "50%% der Mitarbeiter" = true := by
  refine ⟨by rfl, by rfl⟩

/-- Claim C3 — amended: the substitution step never raises, but it inserts each
value with every `%` doubled (`%` → `%%`); only values without `%` appear
unchanged. This holds for both cited sites: the customization prompt's two
embedded values and the `safe_retrieved_context` step of the
script-generation prompt. -/
theorem c3_substitution_amended :
    (∀ base req : String,
      containsSub (build_customization_prompt base req) (safePercent base) = true ∧
      containsSub (build_customization_prompt base req) (safePercent req) = true) ∧
    (∀ base req : String, '%' ∉ base.data →
      containsSub (build_customization_prompt base req) base = true) ∧
    (∀ s : String, (safe_retrieved_context s).data.count '%' = 2 * s.data.count '%') ∧
    (∀ s : String, '%' ∉ s.data → safe_retrieved_context s = s) := by
  have hshape : ∀ base req : String, ∃ l1 l2 l3 : String,
      build_customization_prompt base req
        = l1 ++ (safePercent base ++ (l2 ++ (safePercent req ++ l3))) :=
    fun base req => ⟨_, _, _, rfl⟩
  have hmain : ∀ base req : String,
      containsSub (build_customization_prompt base req) (safePercent base) = true ∧
      containsSub (build_customization_prompt base req) (safePercent req) = true := by
    intro base req
    obtain ⟨l1, l2, l3, hb⟩ := hshape base req
    refine ⟨containsSub_of_eq l1 (safePercent base) (l2 ++ (safePercent req ++ l3)) _ hb, ?_⟩
    refine containsSub_of_eq (l1 ++ (safePercent base ++ l2)) (safePercent req) l3 _ ?_
    rw [hb, strAppend_assoc, strAppend_assoc]
  refine ⟨hmain, ?_, ?_, ?_⟩
  · intro base req hnp
    have h1 := (hmain base req).1
    rwa [safePercent_of_no_percent hnp] at h1
  · intro s
    simp only [safe_retrieved_context, safePercent, strMk_data]
    exact count_doublePercent s.data
  · intro s hs
    simp only [safe_retrieved_context]
    exact safePercent_of_no_percent hs

/-- Witness for the amended C3: a `%`-free value survives the substitution
step verbatim. -/
theorem c3_substitution_amended_witness :
    containsSub (build_customization_prompt "Sicherheitsregeln fuer das Personal" "Mehr Beispiele") "Sicherheitsregeln fuer das Personal" = true :=
  c3_substitution_amended.2.1 "Sicherheitsregeln fuer das Personal" "Mehr Beispiele" (by decide)

/-- Claim C4 — counterexample. `get_generated_script` with a session id absent
from the store raises `KeyError` instead of returning a user-facing notice. -/
theorem c4_counterexample_keyerror :
    get_generated_script ⟨[]⟩ "unbekannt" = PyResult.exn "KeyError" ∧
    (customize_script_section okEffects ⟨[]⟩ "unbekannt" "threat_awareness" "kuerzer").2
        = PyResult.exn "KeyError" := by
  refine ⟨by rfl, by rfl⟩

/-- Claim C4 — amended: for a session id not present in the store,
`process_message` returns the "session problem, please restart" notice
without raising, but `get_generated_script` and `customize_script_section`
index the store directly and raise `KeyError` (a crash) instead of returning
a notice. -/
theorem c4_unknown_session :
    ∀ (γ : Type) (fx : GenEffects γ) (e : Engine)
      (sid msg section_key req : String) (now : Int),
      alistFind e.active_sessions sid = none →
      process_message fx e sid msg now = (e, .ok unknown_session_notice) ∧
      get_generated_script e sid = .exn "KeyError" ∧
      customize_script_section fx e sid section_key req = (e, .exn "KeyError") := by
  intro γ fx e sid msg section_key req now h
  refine ⟨?_, ?_, ?_⟩
  · unfold process_message
    simp [h]
  · unfold get_generated_script
    simp [h]
  · unfold customize_script_section
    simp [h]

/-- Witness for the amended C4 at the empty store. -/
theorem c4_unknown_session_witness :
    process_message okEffects ⟨[]⟩ "fehlt" "Hallo" 0 = (⟨[]⟩, .ok unknown_session_notice) ∧
    get_generated_script ⟨[]⟩ "fehlt" = .exn "KeyError" ∧
    customize_script_section okEffects ⟨[]⟩ "fehlt" "threat_impact" "mehr" = (⟨[]⟩, .exn "KeyError") :=
  c4_unknown_session Unit okEffects ⟨[]⟩ "fehlt" "Hallo" "threat_impact" "mehr" 0 rfl

/-- Claim C5 — confirmed: `_check_for_hallucinations` extracts exactly the
substring spanning from the first `{` to the last `}` of the raw LLM response
(the extracted slice starts with `{`, ends with `}`, is preceded by no `{`
and followed by no `}`; no slice is extracted exactly when no such `{`…`}`
pair exists), parses it with `json.loads`, and degrades every failure — LLM
exception, missing JSON object, or parse failure — to the "no hallucinations
found" result instead of raising. -/
theorem c5_hallucination_check_extraction :
    (∀ (γ : Type) (fx : GenEffects γ) (s : Session) (err : String),
      fx.llm (hallucination_check_prompt_of s) none ((1 : ℚ) / 5) = .exn err →
      check_for_hallucinations fx s = noHallucinations) ∧
    (∀ (γ : Type) (fx : GenEffects γ) (s : Session) (raw : String),
      fx.llm (hallucination_check_prompt_of s) none ((1 : ℚ) / 5) = .ok raw →
      extract_json_str raw = none →
      check_for_hallucinations fx s = noHallucinations) ∧
    (∀ (γ : Type) (fx : GenEffects γ) (s : Session) (raw js : String),
      fx.llm (hallucination_check_prompt_of s) none ((1 : ℚ) / 5) = .ok raw →
      extract_json_str raw = some js → fx.json_loads js = none →
      check_for_hallucinations fx s = noHallucinations) ∧
    (∀ (γ : Type) (fx : GenEffects γ) (s : Session) (raw js : String)
      (rep : HallucinationReport),
      fx.llm (hallucination_check_prompt_of s) none ((1 : ℚ) / 5) = .ok raw →
      extract_json_str raw = some js → fx.json_loads js = some rep →
      check_for_hallucinations fx s = rep) ∧
    (∀ raw js : String, extract_json_str raw = some js →
      ∃ pre mid post, raw.data = pre ++ js.data ++ post ∧ '{' ∉ pre ∧ '}' ∉ post ∧
        js.data = '{' :: (mid ++ ['}'])) ∧
    (∀ raw : String, extract_json_str raw = none →
      ¬ ∃ i j, i ≤ j ∧ raw.data.get? i = some '{' ∧ raw.data.get? j = some '}') := by
  refine ⟨?_, ?_, ?_, ?_, ?_, ?_⟩
  · intro γ fx s err hllm
    simp only [check_for_hallucinations, hllm]
  · intro γ fx s raw hllm hext
    simp only [check_for_hallucinations, hllm, hext]
  · intro γ fx s raw js hllm hext hparse
    simp only [check_for_hallucinations, hllm, hext, hparse]
  · intro γ fx s raw js rep hllm hext hparse
    simp only [check_for_hallucinations, hllm, hext, hparse]
  · intro raw js h
    exact extract_json_str_decomp h
  · intro raw h
    exact extract_json_str_none_spec h

/-- Witness for C5: a concrete response with prose around the JSON object is
sliced at its first `{` and last `}` and the parsed report is returned. -/
theorem c5_hallucination_check_witness :
    check_for_hallucinations halluEffects (create_session 0) = sampleReport :=
  c5_hallucination_check_extraction.2.2.2.1 Unit halluEffects (create_session 0)
    sampleHalluResponse sampleHalluJson sampleReport rfl (by rfl) (by rfl)

/-- Claim C6 — confirmed: recording an answer twice for the same question id
(second value different or not) leaves exactly one entry for that id in the
response mapping, holding the second value; nothing is appended and nothing
raises. (The hypothesis is the dict invariant: at most one entry per key.) -/
theorem c6_record_answer_overwrite :
    ∀ (m : DialogueManager) (sid qid : String) (st : DialogueState)
      (v1 v2 : Value) (t1 t2 : Int),
      alistFind m.dialogue_states sid = some st →
      countKey st.responses qid ≤ 1 →
      ∃ st2,
        alistFind ((process_response (process_response m sid qid v1 t1).1 sid qid v2 t2).1).dialogue_states sid
            = some st2 ∧
        countKey st2.responses qid = 1 ∧
        alistFind st2.responses qid = some v2 ∧
        st2.responses = alistInsert (alistInsert st.responses qid v1) qid v2 := by
  intro m sid qid st v1 v2 t1 t2 hfind hcount
  obtain ⟨hstore1, hresp1⟩ := process_response_found hfind
  have hfind1 : alistFind (process_response m sid qid v1 t1).1.dialogue_states sid
      = some (process_response m sid qid v1 t1).2 := by
    rw [hstore1]
    exact alistFind_insert_self _ _ _
  obtain ⟨hstore2, hresp2⟩ := process_response_found hfind1
  refine ⟨(process_response (process_response m sid qid v1 t1).1 sid qid v2 t2).2,
    ?_, ?_, ?_, ?_⟩
  · rw [hstore2]
    exact alistFind_insert_self _ _ _
  · rw [hresp2, hresp1]
    exact countKey_insert v2 (le_of_eq (countKey_insert v1 hcount))
  · rw [hresp2]
    exact alistFind_insert_self _ _ _
  · rw [hresp2, hresp1]

/-- Witness for C6 on a fresh dialogue: re-answering `facility_type`
overwrites the first answer. -/
theorem c6_record_answer_overwrite_witness :
    ∃ st2,
      alistFind ((process_response (process_response freshManager "s" "facility_type" (.str "Klinik") 1).1
          "s" "facility_type" (.str "Krankenhaus") 2).1).dialogue_states "s" = some st2 ∧
      countKey st2.responses "facility_type" = 1 ∧
      alistFind st2.responses "facility_type" = some (.str "Krankenhaus") ∧
      st2.responses = alistInsert (alistInsert freshState.responses "facility_type" (.str "Klinik"))
          "facility_type" (.str "Krankenhaus") :=
  c6_record_answer_overwrite freshManager "s" "facility_type" freshState
    (.str "Klinik") (.str "Krankenhaus") 1 2 rfl (by decide)

/-- Claim C7 — confirmed: the expiry sweep removes exactly the sessions whose
last-modification timestamp is more than `max_age_hours` old, leaves every
other entry (and its state) unchanged and in order, and returns the number of
sessions removed. (The hypothesis is the dict invariant: distinct keys.) -/
theorem c7_expiry_sweep :
    ∀ (m : DialogueManager) (now max_age_hours : Int),
      (alistKeys m.dialogue_states).Nodup →
      (clean_expired_sessions m now max_age_hours).1.dialogue_states
          = m.dialogue_states.filter (fun p => !isExpired now max_age_hours p.2) ∧
      (clean_expired_sessions m now max_age_hours).2
          = (m.dialogue_states.filter (fun p => isExpired now max_age_hours p.2)).length := by
  intro m now mah hn
  constructor
  · show List.foldl _ m.dialogue_states _ = _
    rw [foldl_erase_eq_filter _ _ hn]
    apply List.filter_congr
    intro p hp
    have hiff := mem_keys_filter_iff hn (fun q => isExpired now mah q.2) hp
    by_cases hE : isExpired now mah p.2
    · simp [hE, hiff.mpr hE]
    · have hnotmem : p.1 ∉ alistKeys (m.dialogue_states.filter (fun q => isExpired now mah q.2)) :=
        fun hc => hE (hiff.mp hc)
      simp [hE, hnotmem]
  · show (alistKeys _).length = _
    simp [alistKeys]

/-- Witness for C7: a stale session (27.8 h old) is removed, a fresh one
(2.8 h old) is kept. -/
theorem c7_expiry_sweep_witness :
    (clean_expired_sessions expiryManager 100000 24).1.dialogue_states
        = expiryManager.dialogue_states.filter (fun p => !isExpired 100000 24 p.2) ∧
    (clean_expired_sessions expiryManager 100000 24).2
        = (expiryManager.dialogue_states.filter (fun p => isExpired 100000 24 p.2)).length :=
  c7_expiry_sweep expiryManager 100000 24 (by decide)

/-- Claim C8 — counterexample. The claim says an absent *or empty* focus-threat
answer yields the default `"phishing"`; but an empty-string answer is wrapped
into the one-element list `[""]`, so the primary threat becomes the empty
string, not `"phishing"`. -/
theorem c8_counterexample_empty_string :
    resolve_main_threat [("focus_threats", Value.str "")] = "" ∧
    ("" : String) ≠ "phishing" := by
  refine ⟨by rfl, by decide⟩

/-- Claim C8 — amended: the primary threat is the first element of a non-empty
list answer, the whole string for a string answer (including the empty
string), and the default `"phishing"` exactly when the answer is absent or an
empty list. -/
theorem c8_main_threat_resolution :
    (∀ (ctx : List (String × Value)) (s : String),
      alistFind ctx "focus_threats" = some (.str s) → resolve_main_threat ctx = s) ∧
    (∀ (ctx : List (String × Value)) (t : String) (ts : List String),
      alistFind ctx "focus_threats" = some (.list (t :: ts)) →
      resolve_main_threat ctx = t) ∧
    (∀ ctx : List (String × Value),
      alistFind ctx "focus_threats" = none ∨
        alistFind ctx "focus_threats" = some (.list []) →
      resolve_main_threat ctx = "phishing") := by
  refine ⟨?_, ?_, ?_⟩
  · intro ctx s h
    simp [resolve_main_threat, resolve_threat_list, h]
  · intro ctx t ts h
    simp [resolve_main_threat, resolve_threat_list, h]
  · intro ctx h
    rcases h with h | h <;> simp [resolve_main_threat, resolve_threat_list, h]

/-- Witness for the amended C8: a plain-string answer is used whole. -/
theorem c8_main_threat_resolution_witness :
    resolve_main_threat [("focus_threats", Value.str "Ransomware")] = "Ransomware" :=
  c8_main_threat_resolution.1 [("focus_threats", Value.str "Ransomware")] "Ransomware" rfl

/-- Claim C9 — confirmed: `process_response` on an unknown session id returns a
freshly initialized dialogue (stage `introduction`, empty responses), stores
it, and silently discards the passed question id and answer — they are
recorded neither in `responses` nor in `asked_questions`. -/
theorem c9_process_response_unknown_session :
    ∀ (m : DialogueManager) (sid qid : String) (v : Value) (t : Int),
      alistFind m.dialogue_states sid = none →
      process_response m sid qid v t = initialize_dialogue m sid t ∧
      (process_response m sid qid v t).2.current_stage = "introduction" ∧
      (process_response m sid qid v t).2.responses = [] ∧
      (process_response m sid qid v t).2.asked_questions = [] ∧
      alistFind (process_response m sid qid v t).1.dialogue_states sid
          = some (process_response m sid qid v t).2 := by
  intro m sid qid v t h
  have h1 : process_response m sid qid v t = initialize_dialogue m sid t := by
    unfold process_response
    rw [h]
  refine ⟨h1, ?_, ?_, ?_, ?_⟩ <;> rw [h1]
  · rfl
  · rfl
  · rfl
  · exact alistFind_insert_self _ _ _

/-- Witness for C9 at the empty store. -/
theorem c9_unknown_session_witness :
    process_response ⟨[]⟩ "neu" "facility_type" (.str "Klinik") 7
        = initialize_dialogue ⟨[]⟩ "neu" 7 ∧
    (process_response ⟨[]⟩ "neu" "facility_type" (.str "Klinik") 7).2.current_stage
        = "introduction" ∧
    (process_response ⟨[]⟩ "neu" "facility_type" (.str "Klinik") 7).2.responses = [] ∧
    (process_response ⟨[]⟩ "neu" "facility_type" (.str "Klinik") 7).2.asked_questions = [] ∧
    alistFind (process_response ⟨[]⟩ "neu" "facility_type" (.str "Klinik") 7).1.dialogue_states "neu"
        = some (process_response ⟨[]⟩ "neu" "facility_type" (.str "Klinik") 7).2 :=
  c9_process_response_unknown_session ⟨[]⟩ "neu" "facility_type" (.str "Klinik") 7 rfl

/-- Claim C10 — confirmed: for each known collection name, an exception raised
by the collection query or by the result processing is caught by
`VectorStore.search` and degraded to the empty list (a successful query
passes its processed documents through); consequently, whenever the embedding
step succeeds, `search_all` returns a dictionary with one entry per
collection — `papers`, `templates`, `threats` — never an exception. -/
theorem c10_search_error_handling :
    (∀ (δ : Type) (fx : VSEffects δ) (col q : String)
      (fm : Option (List (String × String))) (lim vec : Nat) (err : String),
      ["papers", "templates", "threats"].contains col = true →
      fx.embed_query q = .ok vec →
      query_and_process fx col vec fm lim = .exn err →
      search fx col q fm lim = .ok []) ∧
    (∀ (δ : Type) (fx : VSEffects δ) (col q : String)
      (fm : Option (List (String × String))) (lim vec : Nat)
      (docs : List (SearchDoc δ)),
      ["papers", "templates", "threats"].contains col = true →
      fx.embed_query q = .ok vec →
      query_and_process fx col vec fm lim = .ok docs →
      search fx col q fm lim = .ok docs) ∧
    (∀ (δ : Type) (fx : VSEffects δ) (q : String) (lim vec : Nat),
      fx.embed_query q = .ok vec →
      ∃ r1 r2 r3, search_all fx q lim
          = .ok [("papers", r1), ("templates", r2), ("threats", r3)]) := by
  refine ⟨?_, ?_, ?_⟩
  · intro δ fx col q fm lim vec err hcol hembed hqp
    simp only [search, hcol, hembed, hqp, Bool.not_true, Bool.false_eq_true, if_false]
  · intro δ fx col q fm lim vec docs hcol hembed hqp
    simp only [search, hcol, hembed, hqp, Bool.not_true, Bool.false_eq_true, if_false]
  · intro δ fx q lim vec hembed
    have hone : ∀ col : String, ["papers", "templates", "threats"].contains col = true →
        ∃ r, search fx col q none lim = .ok r := by
      intro col hcol
      simp only [search, hcol, hembed, Bool.not_true, Bool.false_eq_true, if_false]
      cases query_and_process fx col vec none lim with
      | ok docs => exact ⟨docs, by simp⟩
      | exn e => exact ⟨[], by simp⟩
    obtain ⟨r1, h1⟩ := hone "papers" (by decide)
    obtain ⟨r2, h2⟩ := hone "templates" (by decide)
    obtain ⟨r3, h3⟩ := hone "threats" (by decide)
    refine ⟨r1, r2, r3, ?_⟩
    unfold search_all
    rw [h1, h2, h3]

/-- Witness for C10: a raising collection query and a ragged result set (an
`IndexError` in the processing loop) both degrade to the empty list. -/
theorem c10_search_error_handling_witness :
    search failingQueryVS "papers" "Phishing" none 3 = .ok [] ∧
    search raggedVS "threats" "Malware" none 3 = .ok [] :=
  ⟨c10_search_error_handling.1 Unit failingQueryVS "papers" "Phishing" none 3 0
      "ChromaError" (by decide) rfl rfl,
   c10_search_error_handling.1 Unit raggedVS "threats" "Malware" none 3 0
      "IndexError" (by decide) rfl (by rfl)⟩

end Infosec
